import Mathlib

/-!
# AIRLA logistics dispatcher: a shallow embedding

A shallow embedding, in Lean, of the orchestration core of the AIRLA
multi-agent logistics repository, together with theorems settling the
claims of its specification.

Conventions of the embedding:

* Python `float` quantities that the code only ever compares or adds
  (weights, volumes, coordinates, minutes) become `ℚ`; quantities that pass
  through trigonometry (the haversine distance) become `ℝ`.
* Timestamps are rationals measured in minutes (`datetime.now()` becomes an
  explicit `now` parameter threaded to every function that reads the clock).
* The Redis hashes of `state_manager.py` become ordered lists of entities
  keyed by their `id` field: Python dicts and small Redis hashes preserve
  insertion order, which is what iteration over `.values()` and `hkeys`
  observes.
* Fallible paths become `Except`/`Option`; every function is written from
  the corresponding function of the source, keeping its name where Lean
  allows it.
-/

namespace AIRLA

/-- Order lifecycle states (`models.OrderState`). -/
inductive OrderState
  | new
  | assigned
  | en_route
  | delivered
  | failed
deriving DecidableEq, Repr

/-- Vehicle lifecycle states (`models.VehicleState`). -/
inductive VehicleState
  | idle
  | assigned
  | moving
  | maintenance
deriving DecidableEq, Repr

/-- The `.value` string of a `VehicleState`, as the `str`-valued enum of
`models.py` exposes it; `base_agent._make_decisions` compares these strings
against the literal list `["available", "idle"]`. -/
def vehicle_state_value : VehicleState → String
  | .idle => "idle"
  | .assigned => "assigned"
  | .moving => "moving"
  | .maintenance => "maintenance"

/-- Geographic location (`models.Location`); only the coordinate fields are
kept, the address fields never reach the orchestration core. -/
structure Location where
  latitude : ℚ
  longitude : ℚ
deriving DecidableEq, Repr

/-- A delivery order (`models.Order`); `created_at` and
`special_requirements` are dropped, no embedded function reads them. -/
structure Order where
  id : String
  customer_id : String
  priority : ℤ
  time_window_start : Option ℚ
  time_window_end : Option ℚ
  weight : ℚ
  volume : ℚ
  pickup_location : Location
  delivery_location : Location
  state : OrderState
deriving DecidableEq, Repr

/-- A vehicle (`models.Vehicle`); `driver_id` and `vehicle_type` are
dropped, no embedded function reads them. -/
structure Vehicle where
  id : String
  capacity_weight : ℚ
  capacity_volume : ℚ
  current_location : Location
  state : VehicleState
  assigned_orders : List String
  max_orders : ℕ
deriving DecidableEq, Repr

/-- The store owned by `StateManager` (`models.SystemState`): orders and
vehicles keyed by id, in insertion order.  Routes and per-agent states are
dropped: no decision or claim reads them back. -/
structure SystemState where
  orders : List Order
  vehicles : List Vehicle
deriving DecidableEq, Repr

/-- `StateManager.get_order`: first stored order with the given id. -/
def SystemState.getOrder (ss : SystemState) (oid : String) : Option Order :=
  ss.orders.find? (fun o => o.id == oid)

/-- `StateManager.get_vehicle`: first stored vehicle with the given id. -/
def SystemState.getVehicle (ss : SystemState) (vid : String) : Option Vehicle :=
  ss.vehicles.find? (fun v => v.id == vid)

/-- `StateManager.update_order`: apply a field update to the stored order
with the given id; a no-op when the id is unknown (the source logs a
warning and returns). -/
def SystemState.updateOrder (ss : SystemState) (oid : String) (f : Order → Order) :
    SystemState :=
  { ss with orders := ss.orders.map (fun o => if o.id = oid then f o else o) }

/-- `StateManager.update_vehicle`: apply a field update to the stored
vehicle with the given id; a no-op when the id is unknown. -/
def SystemState.updateVehicle (ss : SystemState) (vid : String) (f : Vehicle → Vehicle) :
    SystemState :=
  { ss with vehicles := ss.vehicles.map (fun v => if v.id = vid then f v else v) }

/-- `StateManager.add_order` (`hset` keyed by `order.id`): replace the
stored order with the same id, or append. -/
def SystemState.addOrder (ss : SystemState) (o : Order) : SystemState :=
  if ss.orders.any (fun x => x.id == o.id) then
    { ss with orders := ss.orders.map (fun x => if x.id = o.id then o else x) }
  else
    { ss with orders := ss.orders ++ [o] }

/-- `StateManager.add_vehicle`: replace the stored vehicle with the same
id, or append. -/
def SystemState.addVehicle (ss : SystemState) (v : Vehicle) : SystemState :=
  if ss.vehicles.any (fun x => x.id == v.id) then
    { ss with vehicles := ss.vehicles.map (fun x => if x.id = v.id then v else x) }
  else
    { ss with vehicles := ss.vehicles ++ [v] }

/-- `StateManager.get_available_vehicles`: iterate the stored vehicle ids
(`hkeys`), fetch each vehicle, and keep those whose state is `idle` or
`assigned` — the source has no capacity test here. -/
def sm_get_available_vehicles (ss : SystemState) : List Vehicle :=
  (ss.vehicles.map (fun v => v.id)).filterMap (fun vid =>
    match ss.getVehicle vid with
    | some v =>
        if vehicle_state_value v.state = "idle" ∨ vehicle_state_value v.state = "assigned" then
          some v
        else none
    | none => none)

/-- The availability predicate exactly as §4.1 of the spec words it
(`state == Idle` or `state == Assigned and len(assignedOrders) < maxOrders`);
kept separate from the source-derived definitions so the two can be
compared. -/
def spec_available_vehicle (v : Vehicle) : Prop :=
  v.state = .idle ∨ (v.state = .assigned ∧ v.assigned_orders.length < v.max_orders)

instance (v : Vehicle) : Decidable (spec_available_vehicle v) := by
  unfold spec_available_vehicle; infer_instance

/-! ## Distance (`VehicleAssignmentAgent._calculate_distance`,
`RoutePlanningAgent._calculate_distance`) -/

/-- `math.radians`: degrees to radians. -/
noncomputable def radians (deg : ℚ) : ℝ :=
  (deg : ℝ) * Real.pi / 180

/-- `VehicleAssignmentAgent._calculate_distance`: haversine great-circle
distance in km, Earth radius 6371, via `2 * asin(sqrt(a))`. -/
noncomputable def calculate_distance (loc1 loc2 : Location) : ℝ :=
  let lat1 := radians loc1.latitude
  let lon1 := radians loc1.longitude
  let lat2 := radians loc2.latitude
  let lon2 := radians loc2.longitude
  let dlat := lat2 - lat1
  let dlon := lon2 - lon1
  let a := Real.sin (dlat / 2) ^ 2 +
    Real.cos lat1 * Real.cos lat2 * Real.sin (dlon / 2) ^ 2
  let c := 2 * Real.arcsin (Real.sqrt a)
  6371 * c

/-- `RoutePlanningAgent._calculate_distance`: the same haversine formula,
written a second time in the route planner. -/
noncomputable def rp_calculate_distance (loc1 loc2 : Location) : ℝ :=
  let lat1 := radians loc1.latitude
  let lon1 := radians loc1.longitude
  let lat2 := radians loc2.latitude
  let lon2 := radians loc2.longitude
  let dlat := lat2 - lat1
  let dlon := lon2 - lon1
  let a := Real.sin (dlat / 2) ^ 2 +
    Real.cos lat1 * Real.cos lat2 * Real.sin (dlon / 2) ^ 2
  let c := 2 * Real.arcsin (Real.sqrt a)
  6371 * c

/-! ## Vehicle Assignment agent (`agents/vehicle_assignment_agent.py`) -/

/-- `VehicleAssignmentAgent._get_available_vehicles`: the agent-side
availability filter, which — unlike the store's — does test capacity. -/
def agent_get_available_vehicles (ss : SystemState) : List Vehicle :=
  ss.vehicles.foldl (fun acc v =>
    if v.state = .idle then acc ++ [v]
    else if v.state = .assigned ∧ v.assigned_orders.length < v.max_orders then acc ++ [v]
    else acc) []

/-- `VehicleAssignmentAgent._calculate_current_weight`: estimated load,
15 kg per assigned order. -/
def calculate_current_weight (v : Vehicle) : ℚ :=
  (v.assigned_orders.length : ℚ) * 15

/-- `VehicleAssignmentAgent._calculate_current_volume`: estimated load,
0.3 m³ per assigned order. -/
def calculate_current_volume (v : Vehicle) : ℚ :=
  (v.assigned_orders.length : ℚ) * (3 / 10)

/-- `VehicleAssignmentAgent._check_capacity_constraints`: order count,
then weight headroom, then volume headroom. -/
def check_capacity_constraints (v : Vehicle) (o : Order) : Bool :=
  if v.max_orders ≤ v.assigned_orders.length then false
  else if v.capacity_weight < calculate_current_weight v + o.weight then false
  else if v.capacity_volume < calculate_current_volume v + o.volume then false
  else true

/-- Stable sort by descending priority: Python's
`sorted(orders, key=lambda x: x.priority, reverse=True)`.  Each order is
inserted after the already-placed orders of priority `≥` its own, which is
exactly the stable descending order `sorted` produces. -/
def insert_by_priority (o : Order) : List Order → List Order
  | [] => [o]
  | x :: xs => if x.priority < o.priority then o :: x :: xs else x :: insert_by_priority o xs

/-- See `insert_by_priority`. -/
def sort_orders_by_priority_desc (orders : List Order) : List Order :=
  orders.foldl (fun acc o => insert_by_priority o acc) []

/-- `VehicleAssignmentAgent._find_balanced_vehicle`: scan the candidate
vehicles, score each feasible one by
`0.6 * (distance/50) + 0.4 * (len(assigned_orders)/max_orders)`, keep the
strict minimum (`best_score` starts at `float('inf')`, modelled by the
`none` accumulator). -/
noncomputable def find_balanced_vehicle (o : Order) (vehicles : List Vehicle) :
    Option Vehicle :=
  (vehicles.foldl (fun best v =>
    if check_capacity_constraints v o then
      let distance := calculate_distance v.current_location o.pickup_location
      let distance_score := distance / 50
      let workload_score := (v.assigned_orders.length : ℝ) / (v.max_orders : ℝ)
      let combined_score := 6 / 10 * distance_score + 4 / 10 * workload_score
      match best with
      | none => some (v, combined_score)
      | some (bv, bs) =>
          if combined_score < bs then some (v, combined_score) else some (bv, bs)
    else best) none).map Prod.fst

/-- One computed (order, vehicle) pairing, as the assignment dicts of
`_balanced_workload_assignment` record it. -/
structure Assignment where
  order_id : String
  vehicle_id : String
  distance_km : ℝ

/-- `VehicleAssignmentAgent._balanced_workload_assignment`: walk the orders
in descending priority and pair each with `_find_balanced_vehicle`'s pick.
The candidate vehicle list is never updated inside the loop: every order is
scored against the cycle-start snapshot. -/
noncomputable def balanced_workload_assignment (orders : List Order)
    (vehicles : List Vehicle) : List Assignment :=
  (sort_orders_by_priority_desc orders).foldl (fun acc o =>
    match find_balanced_vehicle o vehicles with
    | some bv =>
        acc ++ [⟨o.id, bv.id, calculate_distance bv.current_location o.pickup_location⟩]
    | none => acc) []

/-- `VehicleAssignmentAgent._assign_vehicles_to_orders` with the agent's
default `current_algorithm = "balanced_workload"` (the strategy every
claim is about; the two alternate strategies are not embedded). -/
noncomputable def assign_vehicles_to_orders (orders : List Order)
    (vehicles : List Vehicle) : List Assignment :=
  balanced_workload_assignment orders vehicles

/-- `VehicleAssignmentAgent._execute_assignments`: for each pairing, set
the order `assigned`, re-fetch the vehicle from the store, append the order
id to its `assigned_orders` and set it `assigned`. -/
def execute_assignments (assignments : List Assignment) (ss : SystemState) :
    SystemState :=
  assignments.foldl (fun st asg =>
    let st1 := st.updateOrder asg.order_id (fun o => { o with state := OrderState.assigned })
    match st1.getVehicle asg.vehicle_id with
    | some v =>
        st1.updateVehicle asg.vehicle_id (fun w =>
          { w with assigned_orders := v.assigned_orders ++ [asg.order_id],
                   state := VehicleState.assigned })
    | none => st1) ss

/-- The result value of `VehicleAssignmentAgent.process` (the parts of the
returned dict that callers could read). -/
inductive VAResult
  | no_orders_to_assign
  | no_vehicles_available (unassigned : ℕ)
  | completed (assignments_made : ℕ)
deriving DecidableEq, Repr

/-- `VehicleAssignmentAgent.process`: orders still `new` against the
agent-side available vehicles; early exits for an empty side, otherwise
compute and execute the pairings. -/
noncomputable def vehicleAssignmentProcess (ss : SystemState) :
    SystemState × VAResult :=
  let unassigned_orders := ss.orders.filter (fun o => decide (o.state = .new))
  let available_vehicles := agent_get_available_vehicles ss
  if unassigned_orders.isEmpty then (ss, .no_orders_to_assign)
  else if available_vehicles.isEmpty then
    (ss, .no_vehicles_available unassigned_orders.length)
  else
    let assignments := assign_vehicles_to_orders unassigned_orders available_vehicles
    (execute_assignments assignments ss, .completed assignments.length)

/-! ## Order Ingestion agent (`agents/order_ingestion_agent.py`) -/

/-- A raw location dict of an incoming submission; `none` models a missing
key.  The `isinstance` number checks of the source cannot fail in the typed
embedding and are not represented. -/
structure LocData where
  latitude : Option ℚ
  longitude : Option ℚ
deriving DecidableEq, Repr

/-- A raw order submission dict.  Time windows are already-parsed
timestamps (minutes); the `datetime.fromisoformat` parse-failure branch is
not represented. -/
structure OrderData where
  customer_id : Option String
  pickup_location : Option LocData
  delivery_location : Option LocData
  priority : Option ℤ
  time_window_start : Option ℚ
  time_window_end : Option ℚ
  weight : Option ℚ
  volume : Option ℚ
deriving DecidableEq, Repr

/-- `OrderIngestionAgent._validate_location`: required coordinate fields
and their ranges. -/
def validate_location (ld : LocData) : List String :=
  (match ld.latitude with
   | none => ["Missing location field: latitude"]
   | some lat =>
       if -90 ≤ lat ∧ lat ≤ 90 then [] else ["Latitude must be between -90 and 90"]) ++
  (match ld.longitude with
   | none => ["Missing location field: longitude"]
   | some lon =>
       if -180 ≤ lon ∧ lon ≤ 180 then [] else ["Longitude must be between -180 and 180"])

/-- The `{"valid": ..., "errors": [...]}` dict of `_validate_order_data`. -/
structure ValidationResult where
  valid : Bool
  errors : List String
deriving DecidableEq, Repr

/-- `OrderIngestionAgent._validate_order_data`, check for check in source
order: required fields, locations, weight, volume, priority, time window
(the time-window checks run only when both ends are present, as in the
source).  `valid` is false exactly when some error was recorded, which is
how the source maintains the flag. -/
def validate_order_data (now : ℚ) (d : OrderData) : ValidationResult :=
  let errors :=
    (if d.customer_id = none then ["Missing required field: customer_id"] else []) ++
    (if d.pickup_location = none then ["Missing required field: pickup_location"] else []) ++
    (if d.delivery_location = none then ["Missing required field: delivery_location"] else []) ++
    (match d.pickup_location with
     | some ld => validate_location ld
     | none => []) ++
    (match d.delivery_location with
     | some ld => validate_location ld
     | none => []) ++
    (match d.weight with
     | some w =>
         if w < 0 then ["Weight must be a positive number"]
         else if 1000 < w then ["Weight exceeds maximum: 1000.0kg"] else []
     | none => []) ++
    (match d.volume with
     | some v =>
         if v < 0 then ["Volume must be a positive number"]
         else if 10 < v then ["Volume exceeds maximum: 10.0m³"] else []
     | none => []) ++
    (match d.priority with
     | some p =>
         if 1 ≤ p ∧ p ≤ 5 then [] else ["Priority must be an integer between 1 and 5"]
     | none => []) ++
    (match d.time_window_start, d.time_window_end with
     | some s, some e =>
         (if e ≤ s then ["Time window start must be before end"] else []) ++
         (if s < now then ["Time window start cannot be in the past"] else [])
     | _, _ => [])
  { valid := errors.isEmpty, errors := errors }

/-- `Location(**data)` on a validated submission; a missing coordinate
(impossible once validation passed) defaults to 0. -/
def mk_location : Option LocData → Location
  | some ld => ⟨ld.latitude.getD 0, ld.longitude.getD 0⟩
  | none => ⟨0, 0⟩

/-- `OrderIngestionAgent._create_order`: id generated from the clock and
the running `processed_orders` counter, state defaults to `new`. -/
def create_order (now : ℚ) (processed_count : ℕ) (d : OrderData) : Order :=
  { id := "ORD_" ++ toString now ++ "_" ++ toString (processed_count + 1)
    customer_id := d.customer_id.getD ""
    priority := d.priority.getD 1
    time_window_start := d.time_window_start
    time_window_end := d.time_window_end
    weight := d.weight.getD 0
    volume := d.volume.getD 0
    pickup_location := mk_location d.pickup_location
    delivery_location := mk_location d.delivery_location
    state := OrderState.new }

/-- Accumulated outcome of one `OrderIngestionAgent.process` call:
the agent's `processed_orders` counter, the store, the created order ids
and the per-order failures. -/
structure IngestResult where
  count : ℕ
  store : SystemState
  processed : List String
  failures : List (OrderData × List String)
deriving DecidableEq, Repr

/-- `OrderIngestionAgent.process`: validate each submission in turn;
a valid one is created and added to the store, an invalid one is recorded
per-order and the loop continues (the batch is never aborted).  The
notification messages the source also emits only land in the agent's own
message list (see `send_message`) and are not represented here. -/
def ingestionProcess (now : ℚ) (count : ℕ) (orders_data : List OrderData)
    (ss : SystemState) : IngestResult :=
  orders_data.foldl (fun r d =>
    let vr := validate_order_data now d
    if vr.valid then
      let o := create_order now r.count d
      { r with count := r.count + 1
               store := r.store.addOrder o
               processed := r.processed ++ [o.id] }
    else
      { r with failures := r.failures ++ [(d, vr.errors)] })
    ⟨count, ss, [], []⟩

/-! ## Exception Handling agent (`agents/exception_handling_agent.py`) -/

/-- `ExceptionType`. -/
inductive ExceptionType
  | delivery_failure
  | vehicle_breakdown
  | time_window_violation
  | customer_unavailable
  | address_invalid
  | traffic_delay
  | weather_delay
  | capacity_exceeded
deriving DecidableEq, Repr

/-- `ExceptionSeverity`. -/
inductive ExceptionSeverity
  | low
  | medium
  | high
  | critical
deriving DecidableEq, Repr

/-- The incoming `exception` dict of a `handle_exception` request.
`customer_priority_high` models `exception_data.get("customer_priority") ==
"high"`, `time_sensitive` models `exception_data.get("time_sensitive",
False)`. -/
structure ExceptionData where
  etype : ExceptionType
  order_id : Option String
  vehicle_id : Option String
  customer_priority_high : Bool
  time_sensitive : Bool
deriving DecidableEq, Repr

/-- One escalation-rule entry of `_setup_escalation_rules`
(minutes, retries, path). -/
structure EscalationRule where
  auto_escalate_after_minutes : ℚ
  max_retry_attempts : ℕ
  escalation_path : List String
deriving DecidableEq, Repr

/-- `ExceptionHandlingAgent._setup_escalation_rules`: the five configured
types; `none` for a type absent from the dict (the lookups then fall back
to `.get` defaults). -/
def escalation_rules : ExceptionType → Option EscalationRule
  | .delivery_failure => some ⟨15, 3, ["supervisor_agent", "customer_service"]⟩
  | .vehicle_breakdown => some ⟨5, 1, ["supervisor_agent", "fleet_management"]⟩
  | .time_window_violation => some ⟨0, 2, ["supervisor_agent", "customer_service"]⟩
  | .traffic_delay => some ⟨30, 2, ["route_planning_agent", "supervisor_agent"]⟩
  | .weather_delay => some ⟨20, 1, ["route_planning_agent", "supervisor_agent"]⟩
  | _ => none

/-- `ExceptionHandlingAgent._setup_recovery_strategies`: the five
configured types; `none` for the rest. -/
def recovery_strategies : ExceptionType → Option (List String)
  | .delivery_failure =>
      some ["retry_delivery", "reschedule_delivery", "reassign_vehicle", "contact_customer"]
  | .vehicle_breakdown =>
      some ["dispatch_replacement_vehicle", "reassign_orders_to_other_vehicles",
            "contact_maintenance", "activate_backup_fleet"]
  | .time_window_violation =>
      some ["prioritize_order", "contact_customer_for_extension", "expedite_delivery",
            "offer_compensation"]
  | .traffic_delay =>
      some ["calculate_alternative_route", "adjust_delivery_sequence",
            "notify_affected_customers", "update_estimated_times"]
  | .weather_delay =>
      some ["postpone_non_urgent_deliveries", "use_weather_resistant_vehicles",
            "notify_customers_of_delays", "activate_indoor_waiting_areas"]
  | _ => none

/-- `ExceptionHandlingAgent._determine_severity`: base severity by type,
upgraded one level for a high-priority customer and again (up to critical)
for a time-sensitive order. -/
def determine_severity (d : ExceptionData) : ExceptionSeverity :=
  let base : ExceptionSeverity :=
    match d.etype with
    | .delivery_failure => .medium
    | .vehicle_breakdown => .high
    | .time_window_violation => .high
    | .customer_unavailable => .low
    | .address_invalid => .medium
    | .traffic_delay => .low
    | .weather_delay => .medium
    | .capacity_exceeded => .medium
  let afterCustomer : ExceptionSeverity :=
    if d.customer_priority_high then
      match base with
      | .low => .medium
      | .medium => .high
      | s => s
    else base
  if d.time_sensitive then
    match afterCustomer with
    | .low => .medium
    | .medium => .high
    | .high => .critical
    | s => s
  else afterCustomer

/-- One tracked exception record (`exception_record` dict); the recovery
attempts keep only the action names. -/
structure ExceptionRecord where
  id : String
  etype : ExceptionType
  severity : ExceptionSeverity
  order_id : Option String
  vehicle_id : Option String
  occurred_at : ℚ
  status : String
  retry_count : ℕ
  escalation_level : ℕ
  recovery_attempts : List String
deriving DecidableEq, Repr

/-- `self.active_exceptions[id]` lookup. -/
def get_exception (active : List ExceptionRecord) (eid : String) :
    Option ExceptionRecord :=
  active.find? (fun r => r.id == eid)

/-- `self.active_exceptions[id] = record` assignment: replace, or append. -/
def set_exception (active : List ExceptionRecord) (r : ExceptionRecord) :
    List ExceptionRecord :=
  if active.any (fun x => x.id == r.id) then
    active.map (fun x => if x.id = r.id then r else x)
  else active ++ [r]

/-- `ExceptionHandlingAgent._determine_initial_response`: head of the
type's strategy list (with the source's `.get(type, ["retry_delivery"])`
fallback and severity-dependent branches). -/
def determine_initial_response (r : ExceptionRecord) : String :=
  let strategies := (recovery_strategies r.etype).getD ["retry_delivery"]
  if r.severity = .critical then strategies.headD "retry_delivery"
  else if r.severity = .high then
    (if 0 < strategies.length then strategies.headD "retry_delivery" else "escalate")
  else
    (if strategies.isEmpty then "retry_delivery" else strategies.headD "retry_delivery")

/-- The structured `status` of a recovery action's result dict. -/
inductive RecoveryStatus
  | initiated
  | rescheduled
  | reassignment_requested
  | alternative_route_requested
  | customer_contact_initiated
  | replacement_dispatched (replacement_vehicle_id : String) (transferred : ℕ)
  | no_replacement_available
  | failed (reason : String)
  | action_not_implemented (action : String)
deriving DecidableEq, Repr

/-- `ExceptionHandlingAgent._retry_delivery`: set the order back `en_route`. -/
def retry_delivery (oid : Option String) (ss : SystemState) :
    SystemState × RecoveryStatus :=
  match oid with
  | none => (ss, .failed "no_order_id")
  | some o => (ss.updateOrder o (fun x => { x with state := OrderState.en_route }), .initiated)

/-- `ExceptionHandlingAgent._reschedule_delivery`: reset the order to `new`
with a fresh window two hours out (minutes model: `now+120 .. now+180`). -/
def reschedule_delivery (now : ℚ) (oid : Option String) (ss : SystemState) :
    SystemState × RecoveryStatus :=
  match oid with
  | none => (ss, .failed "no_order_id")
  | some o =>
      (ss.updateOrder o (fun x =>
        { x with state := OrderState.new,
                 time_window_start := some (now + 120),
                 time_window_end := some (now + 180) }), .rescheduled)

/-- `ExceptionHandlingAgent._reassign_vehicle`: reset the order to `new`. -/
def reassign_vehicle (oid : Option String) (ss : SystemState) :
    SystemState × RecoveryStatus :=
  match oid with
  | none => (ss, .failed "no_order_id")
  | some o => (ss.updateOrder o (fun x => { x with state := OrderState.new }),
               .reassignment_requested)

/-- `ExceptionHandlingAgent._dispatch_replacement_vehicle`: mark the broken
vehicle `maintenance`, take the first vehicle the store still reports
available, hand it the broken vehicle's former `assigned_orders` wholesale,
clear the broken vehicle's list; report `no_replacement_available` (leaving
the store marked but otherwise unchanged) when none is available. -/
def dispatch_replacement_vehicle (vid : Option String) (ss : SystemState) :
    SystemState × RecoveryStatus :=
  match vid with
  | none => (ss, .failed "no_vehicle_id")
  | some v_id =>
      match ss.getVehicle v_id with
      | none => (ss, .failed "vehicle_not_found")
      | some vehicle =>
          let ss1 := ss.updateVehicle v_id (fun w =>
            { w with state := VehicleState.maintenance })
          match sm_get_available_vehicles ss1 with
          | replacement :: _ =>
              let ss2 := ss1.updateVehicle replacement.id (fun w =>
                { w with assigned_orders := vehicle.assigned_orders,
                         state := VehicleState.assigned })
              let ss3 := ss2.updateVehicle v_id (fun w =>
                { w with assigned_orders := [] })
              (ss3, .replacement_dispatched replacement.id vehicle.assigned_orders.length)
          | [] => (ss1, .no_replacement_available)

/-- `ExceptionHandlingAgent._execute_recovery_action`: dispatch on the
action name; the message-only actions leave the store unchanged. -/
def execute_recovery_action (now : ℚ) (r : ExceptionRecord) (action : String)
    (ss : SystemState) : SystemState × RecoveryStatus :=
  if action = "retry_delivery" then retry_delivery r.order_id ss
  else if action = "reschedule_delivery" then reschedule_delivery now r.order_id ss
  else if action = "reassign_vehicle" then reassign_vehicle r.order_id ss
  else if action = "dispatch_replacement_vehicle" then
    dispatch_replacement_vehicle r.vehicle_id ss
  else if action = "calculate_alternative_route" then (ss, .alternative_route_requested)
  else if action = "contact_customer" then (ss, .customer_contact_initiated)
  else (ss, .action_not_implemented action)

/-- `ExceptionHandlingAgent._should_escalate`: critical severity, or
elapsed time past the type's threshold (0 means immediately), or retries
exhausted; `.get` defaults 30 and 3 for unconfigured types. -/
def should_escalate (now : ℚ) (r : ExceptionRecord) : Bool :=
  if r.severity = .critical then true
  else
    let rules := escalation_rules r.etype
    let auto := (rules.map (fun x => x.auto_escalate_after_minutes)).getD 30
    if auto = 0 then true
    else if auto < now - r.occurred_at then true
    else (rules.map (fun x => x.max_retry_attempts)).getD 3 ≤ r.retry_count

/-- Result of `_escalate_exception`. -/
inductive EscalateResult
  | not_found
  | escalated (target : String) (level : ℕ)
deriving DecidableEq, Repr

/-- `ExceptionHandlingAgent._escalate_exception`: bump the record's
escalation level and pick the next target on the type's path (supervisor
fallback past its end); the record stays in the active set.  The
escalation message only lands in the agent's own message list and is not
represented. -/
def escalate_exception (active : List ExceptionRecord) (eid : String) :
    List ExceptionRecord × EscalateResult :=
  match get_exception active eid with
  | none => (active, .not_found)
  | some r =>
      let r1 := { r with escalation_level := r.escalation_level + 1 }
      let path := ((escalation_rules r.etype).map
        (fun x => x.escalation_path)).getD ["supervisor_agent"]
      let target :=
        if r1.escalation_level ≤ path.length then path.getD (r1.escalation_level - 1) "supervisor_agent"
        else "supervisor_agent"
      (set_exception active r1, .escalated target r1.escalation_level)

/-- Outcome of `_handle_exception` (the parts of the returned dict a caller
could read). -/
structure HandleResult where
  exception_id : String
  initial_response : String
  response_result : RecoveryStatus
deriving DecidableEq, Repr

/-- `ExceptionHandlingAgent._handle_exception`: create the record (status
`active`), store it, run the initial recovery action, append the attempt,
then escalate if `_should_escalate` fires.  The source builds the id from
the timestamp and `len(active_exceptions)`; the embedding keeps the
counter part. -/
def handle_exception (now : ℚ) (active : List ExceptionRecord) (ss : SystemState)
    (d : ExceptionData) : List ExceptionRecord × SystemState × HandleResult :=
  let exc_id := "EXC_" ++ toString active.length
  let record : ExceptionRecord :=
    { id := exc_id
      etype := d.etype
      severity := determine_severity d
      order_id := d.order_id
      vehicle_id := d.vehicle_id
      occurred_at := now
      status := "active"
      retry_count := 0
      escalation_level := 0
      recovery_attempts := [] }
  let active1 := set_exception active record
  let initial_response := determine_initial_response record
  let exec_result := execute_recovery_action now record initial_response ss
  let ss1 := exec_result.1
  let response_result := exec_result.2
  let record1 := { record with recovery_attempts := [initial_response] }
  let active2 := set_exception active1 record1
  let active3 :=
    if should_escalate now record1 then (escalate_exception active2 exc_id).1 else active2
  (active3, ss1, ⟨exc_id, initial_response, response_result⟩)

/-! ## Route Planning agent, store effect
(`agents/route_planning_agent.py`) -/

/-- The store effect of one `RoutePlanningAgent.process` call.
`_get_vehicles_needing_routes` picks the vehicles of the cycle-start
snapshot that are `assigned`, hold at least one order and have no entry in
the agent's `calculated_routes` cache; `_plan_vehicle_route` returns
`no_orders` (no store write, no cache entry) when none of the vehicle's
order ids resolves in the snapshot, and otherwise computes a plan — always
`success` — caching it; `_execute_route_plans` then sets each successful
vehicle `moving`.  The computed stop sequences and stored `Route` objects
are display data no embedded decision reads and are not represented. -/
def routePlanningProcess (calculated_routes : List String) (ss : SystemState) :
    List String × SystemState :=
  let needing := ss.vehicles.filter (fun v =>
    decide (v.state = .assigned ∧ v.assigned_orders ≠ [] ∧ v.id ∉ calculated_routes))
  needing.foldl (fun acc v =>
    let valid_orders := v.assigned_orders.filter (fun oid => (ss.getOrder oid).isSome)
    if valid_orders.isEmpty then acc
    else
      (acc.1 ++ [v.id],
       acc.2.updateVehicle v.id (fun w => { w with state := VehicleState.moving })))
    (calculated_routes, ss)

/-! ## Inter-agent messages (`base_agent.py`, `models.py`) -/

/-- The `.value` strings of `models.MessageType`. -/
def valid_message_types : List String :=
  ["order_update", "vehicle_update", "route_update", "system_alert",
   "coordination_request", "status_report", "new_order_created",
   "order_assigned", "delivery_completed", "emergency_alert"]

/-- The `MessageType(message_type)` conversion of `BaseAgent.send_message`,
with its `SYSTEM_ALERT` fallback for an unknown string. -/
def message_type_of (s : String) : String :=
  if s ∈ valid_message_types then s else "system_alert"

/-- The `AgentMessage` the orchestration core actually constructs: the
*second* class of that name in `models.py`, which shadows the first when
the module loads.  Its recipient field is named `recipient_agent`; it has no
`receiver` attribute. -/
structure AgentMessage where
  id : String
  sender_agent : String
  recipient_agent : Option String
  message_type : String
  payload : List (String × String)
deriving DecidableEq, Repr

/-- The per-agent state of `BaseAgent`: its name and its own
`self.messages` list. -/
structure BaseAgentState where
  name : String
  messages : List AgentMessage
deriving DecidableEq, Repr

/-- `BaseAgent.send_message`: build the message (fresh uuid passed in) and
append it to the *sender's own* `self.messages` list; the message is
returned but put on no queue. -/
def send_message (uuid : String) (a : BaseAgentState) (receiver : String)
    (mtype : String) (payload : List (String × String)) :
    BaseAgentState × AgentMessage :=
  let message : AgentMessage :=
    { id := uuid
      sender_agent := a.name
      recipient_agent := some receiver
      message_type := message_type_of mtype
      payload := payload }
  ({ a with messages := a.messages ++ [message] }, message)

/-- How the embedded loop can fail: LangGraph's recursion limit, or a
Python `AttributeError`. -/
inductive RunError
  | recursionLimit
  | attributeError
deriving DecidableEq, Repr

/-- `AgentOrchestrator._process_message_queue`: drain the queue, delivering
each message to `self.agents[message.receiver]`.  The `AgentMessage` class
in scope has no `receiver` attribute (see `AgentMessage`), so the very
first popped message raises `AttributeError`; only the empty queue drains
without error, delivering nothing. -/
def process_message_queue : List AgentMessage →
    Except RunError (List (String × AgentMessage))
  | [] => .ok []
  | _ :: _ => .error .attributeError

/-! ## The Dispatcher (`AgentOrchestrator`, `base_agent.py`) -/

/-- The orchestrator's own mutable fields (`AgentOrchestrator.__init__`):
message queue, the "seen" set `_processed_orders`, the
`_failed_assignments` set, the `_no_vehicle_attempts` counter and
`_current_step_count`.  (`_assignment_attempts` is initialised but never
read or written again and is dropped.) -/
structure Orchestrator where
  message_queue : List AgentMessage
  processed_orders : List String
  failed_assignments : List String
  no_vehicle_attempts : ℕ
  current_step_count : ℕ
deriving DecidableEq, Repr

/-- A freshly constructed `AgentOrchestrator`. -/
def mkOrchestrator : Orchestrator :=
  { message_queue := []
    processed_orders := []
    failed_assignments := []
    no_vehicle_attempts := 0
    current_step_count := 0 }

/-- `AgentOrchestrator.route_message`: the only producer of the
orchestrator's `message_queue` — no caller exists anywhere in the
repository. -/
def route_message (orch : Orchestrator) (m : AgentMessage) : Orchestrator :=
  { orch with message_queue := orch.message_queue ++ [m] }

/-- `AgentOrchestrator.handle_vehicle_assignment_result`: increment
`_no_vehicle_attempts` on a `no_vehicles_available` result, reset it
otherwise — no caller exists anywhere in the repository. -/
def handle_vehicle_assignment_result (orch : Orchestrator) (result : VAResult) :
    Orchestrator :=
  match result with
  | .no_vehicles_available _ =>
      { orch with no_vehicle_attempts := orch.no_vehicle_attempts + 1 }
  | _ => { orch with no_vehicle_attempts := 0 }

/-- The `orchestrator_decisions` dict `_make_decisions` returns. -/
structure Decisions where
  new_orders : Bool
  needs_assignment : Bool
  needs_routing : Bool
  has_exceptions : Bool
deriving DecidableEq, Repr

/-- All-false decisions: the early return that ends the workflow. -/
def allFalse : Decisions :=
  { new_orders := false, needs_assignment := false
    needs_routing := false, has_exceptions := false }

/-- `AgentOrchestrator._make_decisions`.  Past step 10 every decision is
false.  Otherwise: unseen `new` orders are marked seen and routed to
intake; else `new`-and-seen orders not marked failed go to assignment —
unless no vehicle's `state.value` is in `["available", "idle"]` (only
`"idle"` can match: no `VehicleState` has value `"available"`, so vehicles
in state `assigned` do not count here) *and* `_no_vehicle_attempts ≥ 3`,
in which case the pending orders are marked failed instead; routing fires
for `assigned` orders when neither earlier decision did; exceptions fire
for `failed` orders. -/
def make_decisions (orch : Orchestrator) (ss : SystemState) :
    Orchestrator × Decisions :=
  if 10 < orch.current_step_count then (orch, allFalse)
  else
    let new_orders := ss.orders.filter (fun o =>
      decide (o.state = .new ∧ o.id ∉ orch.processed_orders))
    let assigned_nonempty := !(ss.orders.filter (fun o => decide (o.state = .assigned))).isEmpty
    let has_failed := !(ss.orders.filter (fun o => decide (o.state = .failed))).isEmpty
    if !new_orders.isEmpty then
      ({ orch with processed_orders :=
           orch.processed_orders ++ new_orders.map (fun o => o.id) },
       { new_orders := true, needs_assignment := false
         needs_routing := false, has_exceptions := has_failed })
    else
      let ready_orders := ss.orders.filter (fun o =>
        decide (o.state = .new ∧ o.id ∈ orch.processed_orders ∧
          o.id ∉ orch.failed_assignments))
      let available_vehicles := ss.vehicles.filter (fun v =>
        decide (vehicle_state_value v.state = "available" ∨
          vehicle_state_value v.state = "idle"))
      if available_vehicles.isEmpty ∧ 3 ≤ orch.no_vehicle_attempts then
        ({ orch with failed_assignments :=
             orch.failed_assignments ++ ready_orders.map (fun o => o.id) },
         { new_orders := false, needs_assignment := false
           needs_routing := assigned_nonempty, has_exceptions := has_failed })
      else
        (orch,
         { new_orders := false, needs_assignment := !ready_orders.isEmpty
           needs_routing := assigned_nonempty && ready_orders.isEmpty
           has_exceptions := has_failed })

/-- The LangGraph state dict of one run: the step counter, the forced-end
flag, the latest `orchestrator_decisions`, and the `orders` payload of the
initial input (what `OrderIngestionAgent.process` reads; the
`run_workflow` callers in the repository never pass one). -/
structure GraphState where
  step_count : ℕ
  force_end : Bool
  decisions : Decisions
  orders_data : List OrderData
deriving DecidableEq, Repr

/-- `AgentOrchestrator._orchestrate`: bump the step counter (also into
`_current_step_count`); past 20 set `force_end` and return at once
(decisions untouched); otherwise drain the message queue — an
`AttributeError` on any queued message — and compute fresh decisions from
the store snapshot. -/
def orchestrate (orch : Orchestrator) (ss : SystemState) (gs : GraphState) :
    Except RunError (GraphState × Orchestrator) :=
  let step := gs.step_count + 1
  let orch1 := { orch with current_step_count := step }
  if 20 < step then
    .ok ({ gs with step_count := step, force_end := true }, orch1)
  else
    match process_message_queue orch1.message_queue with
    | .error e => .error e
    | .ok _ =>
        let (orch2, ds) := make_decisions orch1 ss
        .ok ({ gs with step_count := step, decisions := ds }, orch2)

/-- `AgentOrchestrator._route_to_agents`: forced end wins, then the strict
priority order intake → assignment → routing → exceptions → END. -/
def route_to_agents (gs : GraphState) : String :=
  if gs.force_end then "END"
  else if gs.decisions.new_orders then "order_ingestion_agent"
  else if gs.decisions.needs_assignment then "vehicle_assignment_agent"
  else if gs.decisions.needs_routing then "route_planning_agent"
  else if gs.decisions.has_exceptions then "exception_handling_agent"
  else "END"

/-- The compiled LangGraph loop: orchestrator node, conditional edge, one
agent node, back to the orchestrator; `fuel` is LangGraph's recursion
limit on node transitions (50 in `run_workflow`).  `agentStep` is the
registered agents' `process` table: an agent receives the graph state and
the store and returns its internal state and the store — it has no access
to the orchestrator's fields (in the source the agents hold only the
`StateManager`). -/
def runLoop {α : Type} (agentStep : String → GraphState → α → SystemState → α × SystemState) :
    ℕ → GraphState → Orchestrator → α → SystemState →
    Except RunError (GraphState × Orchestrator × α × SystemState)
  | 0, _, _, _, _ => .error .recursionLimit
  | fuel + 1, gs, orch, a, ss =>
    match orchestrate orch ss gs with
    | .error e => .error e
    | .ok (gs1, orch1) =>
        let target := route_to_agents gs1
        if target = "END" then .ok (gs1, orch1, a, ss)
        else
          let (a1, ss1) := agentStep target gs1 a ss
          runLoop agentStep fuel gs1 orch1 a1 ss1

/-- The per-run reset at the top of `AgentOrchestrator.run_workflow`
(lines 274–276): `_current_step_count = 0` and `_no_vehicle_attempts = 0`.
No other tracking field is touched there. -/
def run_workflow_init (orch : Orchestrator) : Orchestrator :=
  { orch with current_step_count := 0, no_vehicle_attempts := 0 }

/-- What `run_workflow` returns: the final graph state on success, the
"stopped due to no available vehicles" success dict when the caught
exception mentions the recursion limit, a generic error dict otherwise. -/
inductive RunResult
  | completed (gs : GraphState) (orch : Orchestrator) (ss : SystemState)
  | recursionLimitNote
  | errorDict (e : RunError)
deriving DecidableEq, Repr

/-- `AgentOrchestrator.run_workflow`: reset the per-run counters, seed the
graph state (`step_count = 0`, `force_end = False`), invoke the compiled
workflow under `recursion_limit = 50`, and convert any exception into a
result dict. -/
def run_workflow {α : Type}
    (agentStep : String → GraphState → α → SystemState → α × SystemState)
    (a : α) (orch : Orchestrator) (ss : SystemState)
    (input_orders : List OrderData) : RunResult :=
  let gs0 : GraphState :=
    { step_count := 0, force_end := false, decisions := allFalse
      orders_data := input_orders }
  match runLoop agentStep 50 gs0 (run_workflow_init orch) a ss with
  | .ok (gs, orchF, _, ssF) => .completed gs orchF ssF
  | .error .recursionLimit => .recursionLimitNote
  | .error e => .errorDict e

/-! ## The registered agents of `LogisticsSystem`, as the workflow sees
them -/

/-- The internal state of the registered agents that feeds back into their
store effects across steps: the ingestion agent's `processed_orders`
counter and the route planner's `calculated_routes` cache. -/
structure DemoAgents where
  ingestion_count : ℕ
  calculated_routes : List String
deriving DecidableEq, Repr

/-- The agent table `LogisticsSystem._initialize_agents` registers, reduced
to each agent's store effect when invoked as a workflow node.

* intake: `OrderIngestionAgent.process` on the graph state's `orders`
  payload;
* assignment: `VehicleAssignmentAgent.process` (its result dict is
  returned to LangGraph and read by nobody —
  `handle_vehicle_assignment_result` has no caller);
* routing: `RoutePlanningAgent.process`'s store effect;
* every other registered agent (`exception_handling_agent` among them)
  leaves the store unchanged when invoked with the graph state as input:
  the repository's `run_workflow` callers pass `{"action":
  "process_system"}` or `{"trigger": "new_order"}`, on which
  `ExceptionHandlingAgent.process` runs `_general_exception_monitoring`
  (respectively `_handle_exception` on an empty `exception` dict, whose
  `retry_delivery` fails for want of an order id) — neither writes the
  store; `SupervisorAgent` and `TrafficWeatherAgent` are never routed to
  by `_route_to_agents` at all. -/
noncomputable def theAgents (now : ℚ) :
    String → GraphState → DemoAgents → SystemState → DemoAgents × SystemState :=
  fun name gs a ss =>
    if name = "order_ingestion_agent" then
      let r := ingestionProcess now a.ingestion_count gs.orders_data ss
      ({ a with ingestion_count := r.count }, r.store)
    else if name = "vehicle_assignment_agent" then
      (a, (vehicleAssignmentProcess ss).1)
    else if name = "route_planning_agent" then
      let r := routePlanningProcess a.calculated_routes ss
      ({ a with calculated_routes := r.1 }, r.2)
    else (a, ss)

/-! ## Concrete scenario inputs -/

/-- A pending order for the zero-vehicle scenario. -/
def c3_order : Order :=
  { id := "o1", customer_id := "c1", priority := 3
    time_window_start := none, time_window_end := none
    weight := 0, volume := 0
    pickup_location := ⟨0, 0⟩, delivery_location := ⟨0, 0⟩
    state := .new }

/-- One `new` order, zero vehicles. -/
def c3_store : SystemState := ⟨[c3_order], []⟩

/-- Priority-5 order of the two-order assignment scenario. -/
def c6_order_p5 : Order :=
  { id := "o5", customer_id := "c1", priority := 5
    time_window_start := none, time_window_end := none
    weight := 0, volume := 0
    pickup_location := ⟨0, 0⟩, delivery_location := ⟨0, 0⟩
    state := .new }

/-- Priority-1 order of the two-order assignment scenario. -/
def c6_order_p1 : Order :=
  { c6_order_p5 with id := "oP1", priority := 1 }

/-- The single vehicle of the scenario, `max_orders = 1`, idle. -/
def c6_vehicle : Vehicle :=
  { id := "v1", capacity_weight := 500, capacity_volume := 3
    current_location := ⟨0, 0⟩, state := .idle
    assigned_orders := [], max_orders := 1 }

/-- Two `new` orders (priority 5 and 1), one idle vehicle with
`max_orders = 1`. -/
def c6_store : SystemState := ⟨[c6_order_p5, c6_order_p1], [c6_vehicle]⟩

/-- An `assigned` vehicle already holding `max_orders` orders: available by
the store's filter, not by the spec's. -/
def c5_full_vehicle : Vehicle :=
  { id := "fv", capacity_weight := 500, capacity_volume := 3
    current_location := ⟨0, 0⟩, state := .assigned
    assigned_orders := ["a1"], max_orders := 1 }

/-- The broken-down vehicle of the breakdown scenario. -/
def c8_broken_vehicle : Vehicle :=
  { id := "bv", capacity_weight := 500, capacity_volume := 3
    current_location := ⟨0, 0⟩, state := .assigned
    assigned_orders := ["x1", "x2"], max_orders := 10 }

/-- The idle replacement vehicle of the breakdown scenario. -/
def c8_replacement_vehicle : Vehicle :=
  { id := "rv", capacity_weight := 500, capacity_volume := 3
    current_location := ⟨0, 0⟩, state := .idle
    assigned_orders := [], max_orders := 10 }

/-- The breakdown report for vehicle `bv`. -/
def c8_breakdown : ExceptionData :=
  { etype := .vehicle_breakdown, order_id := none, vehicle_id := some "bv"
    customer_priority_high := false, time_sensitive := false }

/-- A submission whose whole time window lies in the past of `now = 1000`. -/
def c9_bad_data : OrderData :=
  { customer_id := some "c1"
    pickup_location := some ⟨some 40, some (-74)⟩
    delivery_location := some ⟨some 41, some (-74)⟩
    priority := some 3
    time_window_start := some 100, time_window_end := some 200
    weight := some 5, volume := some 1 }

/-- A valid submission of the same batch. -/
def c9_good_data : OrderData :=
  { c9_bad_data with time_window_start := some 2000, time_window_end := some 3000 }

/-- An orchestrator carrying tracking state left over from a previous run. -/
def c7_stale_orchestrator : Orchestrator :=
  { message_queue := []
    processed_orders := ["o1"]
    failed_assignments := ["o1"]
    no_vehicle_attempts := 2
    current_step_count := 5 }

/-- A worker agent about to send a message. -/
def c2_sender : BaseAgentState := ⟨"vehicle_assignment_agent", []⟩

/-- New York City (40.7128, -74.0060). -/
def nyc : Location := ⟨40.7128 , -74.0060⟩

/-- One degree of latitude north of `nyc`. -/
def nyc_north : Location := ⟨41.7128 , -74.0060⟩

/-- The orchestrator state the zero-vehicle run ends in (established by
`no_vehicle_run_counterexample`). -/
def c3_final_orchestrator : Orchestrator :=
  { message_queue := [], processed_orders := ["o1"], failed_assignments := []
    no_vehicle_attempts := 0, current_step_count := 11 }

/-- An orchestrator whose step counter has passed the claimed soft
threshold of 15. -/
def c4_orchestrator : Orchestrator :=
  { message_queue := [], processed_orders := [], failed_assignments := []
    no_vehicle_attempts := 0, current_step_count := 16 }

/-- A store holding one failed order, for exercising the degraded-mode
decision. -/
def c4_store : SystemState :=
  ⟨[{ c3_order with id := "of", state := .failed }], []⟩

/-! ## Helper lemmas -/

/-- Draining errors are only ever `AttributeError`. -/
theorem process_message_queue_error {q : List AgentMessage} {e : RunError}
    (h : process_message_queue q = .error e) : e = .attributeError := by
  cases q with
  | nil => simp [process_message_queue] at h
  | cons m q => simpa [process_message_queue] using h.symm

/-- Past step 10, `_make_decisions` returns every decision false and leaves
the orchestrator untouched. -/
theorem make_decisions_past_ten {orch : Orchestrator} (ss : SystemState)
    (h : 10 < orch.current_step_count) : make_decisions orch ss = (orch, allFalse) := by
  simp [make_decisions, h]

/-- The fields of the orchestrator `_make_decisions` can touch: the step
counter and message queue are never changed, `_no_vehicle_attempts` is
never changed, and `_failed_assignments` is unchanged whenever
`_no_vehicle_attempts = 0` (the marking branch needs it `≥ 3`). -/
theorem make_decisions_fields (orch : Orchestrator) (ss : SystemState) :
    (make_decisions orch ss).1.current_step_count = orch.current_step_count ∧
    (make_decisions orch ss).1.message_queue = orch.message_queue ∧
    (make_decisions orch ss).1.no_vehicle_attempts = orch.no_vehicle_attempts ∧
    (orch.no_vehicle_attempts = 0 →
      (make_decisions orch ss).1.failed_assignments = orch.failed_assignments) := by
  unfold make_decisions
  split
  · exact ⟨rfl, rfl, rfl, fun _ => rfl⟩
  · dsimp only
    split_ifs with h2 h3
    · exact ⟨rfl, rfl, rfl, fun _ => rfl⟩
    · refine ⟨rfl, rfl, rfl, fun h0 => ?_⟩
      have h32 := h3.2
      omega
    · exact ⟨rfl, rfl, rfl, fun _ => rfl⟩

/-- Routing on all-false decisions ends the workflow, whatever the
`force_end` flag. -/
theorem route_to_agents_allFalse {gs : GraphState} (h : gs.decisions = allFalse) :
    route_to_agents gs = "END" := by
  simp [route_to_agents, h, allFalse]

/-- What one `_orchestrate` step guarantees when it returns: the step
counter advanced by one; if it advanced past 10 the subsequent routing
ends the workflow; and the no-vehicle counter and (when that counter is 0)
the failed-assignment set are untouched. -/
theorem orchestrate_ok {orch : Orchestrator} {ss : SystemState} {gs gs' : GraphState}
    {orch' : Orchestrator} (h : orchestrate orch ss gs = .ok (gs', orch')) :
    gs'.step_count = gs.step_count + 1 ∧
    (10 < gs'.step_count → route_to_agents gs' = "END") ∧
    orch'.no_vehicle_attempts = orch.no_vehicle_attempts ∧
    (orch.no_vehicle_attempts = 0 →
      orch'.failed_assignments = orch.failed_assignments) := by
  unfold orchestrate at h
  by_cases h20 : 20 < gs.step_count + 1
  · simp only [h20, if_true] at h
    obtain ⟨hgs, horch⟩ := Prod.mk.injEq .. ▸ (Except.ok.injEq .. ▸ h)
    subst hgs horch
    refine ⟨rfl, fun _ => ?_, rfl, fun _ => rfl⟩
    simp [route_to_agents]
  · simp only [h20, if_false] at h
    cases hq : process_message_queue orch.message_queue with
    | error e => simp [hq] at h
    | ok ds =>
        simp only [hq] at h
        obtain ⟨hgs, horch⟩ := Prod.mk.injEq .. ▸ (Except.ok.injEq .. ▸ h)
        have hmk := make_decisions_fields
          { orch with current_step_count := gs.step_count + 1 } ss
        refine ⟨hgs ▸ rfl, ?_, ?_, ?_⟩
        · intro hstep
          have hstep' : 10 < gs.step_count + 1 := by
            have := hgs ▸ hstep
            simpa using this
          apply route_to_agents_allFalse
          have hall : make_decisions
              { orch with current_step_count := gs.step_count + 1 } ss =
              ({ orch with current_step_count := gs.step_count + 1 }, allFalse) :=
            make_decisions_past_ten ss (by simpa using hstep')
          rw [← hgs]
          simp [hall]
        · rw [← horch]
          simpa using hmk.2.2.1
        · intro h0
          rw [← horch]
          simpa using hmk.2.2.2 h0

/-- `orchestrate` never raises the recursion limit. -/
theorem orchestrate_ne_recursion (orch : Orchestrator) (ss : SystemState)
    (gs : GraphState) : orchestrate orch ss gs ≠ .error .recursionLimit := by
  unfold orchestrate
  by_cases h20 : 20 < gs.step_count + 1
  · simp [h20]
  · simp only [h20, if_false]
    cases hq : process_message_queue orch.message_queue with
    | error e =>
        have := process_message_queue_error hq
        subst this
        simp
    | ok ds => simp

/-- With enough fuel relative to the step counter, the loop never exhausts
LangGraph's recursion limit: every reachable continuation happens at a step
count of at most 10, so at most 11 orchestrator steps ever run. -/
theorem runLoop_ne_recursion {α : Type}
    (agentStep : String → GraphState → α → SystemState → α × SystemState) :
    ∀ (fuel : ℕ) (gs : GraphState) (orch : Orchestrator) (a : α) (ss : SystemState),
      1 ≤ fuel → 12 ≤ gs.step_count + fuel →
      runLoop agentStep fuel gs orch a ss ≠ .error .recursionLimit := by
  intro fuel
  induction fuel with
  | zero => intro gs orch a ss h1 _; omega
  | succ n ih =>
      intro gs orch a ss _ h12
      unfold runLoop
      cases horch : orchestrate orch ss gs with
      | error e =>
          intro hcontra
          simp only [horch] at hcontra
          have he : e = RunError.recursionLimit := by
            simpa using hcontra
          subst he
          exact orchestrate_ne_recursion orch ss gs horch
      | ok out =>
          obtain ⟨gs1, orch1⟩ := out
          have hfacts := orchestrate_ok horch
          simp only
          by_cases hend : route_to_agents gs1 = "END"
          · simp [hend]
          · simp only [hend, if_false]
            have hle : gs1.step_count ≤ 10 := by
              by_contra hgt
              exact hend (hfacts.2.1 (by omega))
            exact ih gs1 orch1 (agentStep (route_to_agents gs1) gs1 a ss).1
              (agentStep (route_to_agents gs1) gs1 a ss).2 (by omega) (by omega)

/-- Whenever the loop completes from a step count of at most 10, the final
step count is at most 11. -/
theorem runLoop_step_bound {α : Type}
    (agentStep : String → GraphState → α → SystemState → α × SystemState) :
    ∀ (fuel : ℕ) (gs : GraphState) (orch : Orchestrator) (a : α) (ss : SystemState)
      (out : GraphState × Orchestrator × α × SystemState),
      gs.step_count ≤ 10 →
      runLoop agentStep fuel gs orch a ss = .ok out →
      out.1.step_count ≤ 11 := by
  intro fuel
  induction fuel with
  | zero => intro gs orch a ss out _ h; simp [runLoop] at h
  | succ n ih =>
      intro gs orch a ss out hle h
      unfold runLoop at h
      cases horch : orchestrate orch ss gs with
      | error e => simp [horch] at h
      | ok o =>
          obtain ⟨gs1, orch1⟩ := o
          have hfacts := orchestrate_ok horch
          simp only [horch] at h
          by_cases hend : route_to_agents gs1 = "END"
          · simp only [hend, if_true] at h
            have heq := Except.ok.inj h
            subst heq
            show gs1.step_count ≤ 11
            omega
          · simp only [hend, if_false] at h
            have hle1 : gs1.step_count ≤ 10 := by
              by_contra hgt
              exact hend (hfacts.2.1 (by omega))
            exact ih gs1 orch1 _ _ out hle1 h

/-- Whenever the loop completes from an orchestrator whose no-vehicle
counter is 0, it is still 0 at the end and the failed-assignment set is
unchanged: nothing inside the loop ever increments the counter
(`handle_vehicle_assignment_result`, the only increment site in the
source, has no caller), and the marking branch needs it `≥ 3`. -/
theorem runLoop_no_vehicle_attempts {α : Type}
    (agentStep : String → GraphState → α → SystemState → α × SystemState) :
    ∀ (fuel : ℕ) (gs : GraphState) (orch : Orchestrator) (a : α) (ss : SystemState)
      (out : GraphState × Orchestrator × α × SystemState),
      orch.no_vehicle_attempts = 0 →
      runLoop agentStep fuel gs orch a ss = .ok out →
      out.2.1.no_vehicle_attempts = 0 ∧
      out.2.1.failed_assignments = orch.failed_assignments := by
  intro fuel
  induction fuel with
  | zero => intro gs orch a ss out _ h; simp [runLoop] at h
  | succ n ih =>
      intro gs orch a ss out h0 h
      unfold runLoop at h
      cases horch : orchestrate orch ss gs with
      | error e => simp [horch] at h
      | ok o =>
          obtain ⟨gs1, orch1⟩ := o
          have hfacts := orchestrate_ok horch
          have h01 : orch1.no_vehicle_attempts = 0 := by rw [hfacts.2.2.1, h0]
          have hfail1 : orch1.failed_assignments = orch.failed_assignments :=
            hfacts.2.2.2 h0
          simp only [horch] at h
          by_cases hend : route_to_agents gs1 = "END"
          · simp only [hend, if_true] at h
            have heq := Except.ok.inj h
            subst heq
            exact ⟨h01, hfail1⟩
          · simp only [hend, if_false] at h
            have := ih gs1 orch1 _ _ out h01 h
            exact ⟨this.1, hfail1 ▸ this.2⟩

/-- In a vehicle list with no duplicate ids, looking an element's id up
finds that element. -/
theorem find_id_self :
    ∀ (l : List Vehicle), (l.map Vehicle.id).Nodup →
      ∀ v ∈ l, l.find? (fun x => x.id == v.id) = some v := by
  intro l
  induction l with
  | nil => intro _ v hv; simp at hv
  | cons x xs ih =>
      intro hnd v hv
      simp only [List.map_cons, List.nodup_cons] at hnd
      rcases List.mem_cons.mp hv with hv | hv
      · subst hv
        simp [List.find?]
      · have hne : (x.id == v.id) = false := by
          have : v.id ∈ xs.map Vehicle.id := List.mem_map_of_mem _ hv
          have hx : x.id ≠ v.id := fun hcontra => hnd.1 (hcontra ▸ this)
          simpa using hx
        simp only [List.find?, hne]
        exact ih hnd.2 v hv

/-- Iterating the stored ids and re-fetching each vehicle is, on a store
with no duplicate ids, just filtering the stored vehicles. -/
theorem sm_get_available_vehicles_eq_filter (ss : SystemState)
    (hnd : (ss.vehicles.map Vehicle.id).Nodup) :
    sm_get_available_vehicles ss = ss.vehicles.filter (fun v =>
      decide (vehicle_state_value v.state = "idle" ∨
        vehicle_state_value v.state = "assigned")) := by
  have aux : ∀ (sub : List Vehicle),
      (∀ v ∈ sub, ss.getVehicle v.id = some v) →
      (sub.map (fun v => v.id)).filterMap (fun vid =>
        match ss.getVehicle vid with
        | some v =>
            if vehicle_state_value v.state = "idle" ∨
              vehicle_state_value v.state = "assigned" then some v else none
        | none => none) =
      sub.filter (fun v => decide (vehicle_state_value v.state = "idle" ∨
        vehicle_state_value v.state = "assigned")) := by
    intro sub
    induction sub with
    | nil => intro _; simp
    | cons w ws ih =>
        intro hall
        have hw := hall w (List.mem_cons_self _ _)
        simp only [List.map_cons, List.filterMap_cons, hw, List.filter_cons]
        by_cases hp : vehicle_state_value w.state = "idle" ∨
            vehicle_state_value w.state = "assigned"
        · simp [hp, ih (fun v hv => hall v (List.mem_cons_of_mem _ hv))]
        · simp [hp, ih (fun v hv => hall v (List.mem_cons_of_mem _ hv))]
  exact aux ss.vehicles (fun v hv => find_id_self ss.vehicles hnd v hv)

/-- The agent-side availability fold is the filter of its two acceptance
branches. -/
theorem agent_get_available_vehicles_eq_filter (ss : SystemState) :
    agent_get_available_vehicles ss =
      ss.vehicles.filter (fun v => decide (spec_available_vehicle v)) := by
  have aux : ∀ (l : List Vehicle) (acc : List Vehicle),
      l.foldl (fun acc v =>
        if v.state = .idle then acc ++ [v]
        else if v.state = .assigned ∧ v.assigned_orders.length < v.max_orders then acc ++ [v]
        else acc) acc =
      acc ++ l.filter (fun v => decide (spec_available_vehicle v)) := by
    intro l
    induction l with
    | nil => intro acc; simp
    | cons v vs ih =>
        intro acc
        simp only [List.foldl_cons, List.filter_cons]
        by_cases h1 : v.state = .idle
        · have hp : decide (spec_available_vehicle v) = true := by
            simp [spec_available_vehicle, h1]
          simp [h1, hp, ih]
        · by_cases h2 : v.state = .assigned ∧ v.assigned_orders.length < v.max_orders
          · have hp : decide (spec_available_vehicle v) = true := by
              simp [spec_available_vehicle, h2]
            simp [h1, h2, hp, ih]
          · have hp : decide (spec_available_vehicle v) = false := by
              simp [spec_available_vehicle, h1, h2]
            simp [h1, h2, hp, ih]
  exact aux ss.vehicles []

/-- Updating under one id leaves lookups of a different id unchanged, as
long as the update preserves ids. -/
theorem find_update_of_ne (l : List Vehicle) (vid xid : String) (f : Vehicle → Vehicle)
    (hpres : ∀ w, (f w).id = w.id) (hne : xid ≠ vid) :
    (l.map (fun v => if v.id = vid then f v else v)).find? (fun v => v.id == xid) =
      l.find? (fun v => v.id == xid) := by
  induction l with
  | nil => simp
  | cons w ws ih =>
      simp only [List.map_cons, List.find?]
      by_cases hw : w.id = vid
      · have : (f w).id = w.id := hpres w
        simp only [hw, if_true, this]
        by_cases hx : w.id == xid
        · have : w.id = xid := by simpa using hx
          exact absurd (this ▸ hw) hne
        · simp only [Bool.not_eq_true] at hx
          rw [hw] at hx
          simp only [hw, hx]
          exact ih
      · simp only [hw, if_false]
        by_cases hx : w.id == xid
        · simp [hx]
        · simp only [Bool.not_eq_true] at hx
          simp only [hx]
          exact ih

/-- Updating under the id an earlier lookup found rewrites exactly that
lookup's result, as long as the update preserves ids. -/
theorem find_update_self (l : List Vehicle) (vid : String) (f : Vehicle → Vehicle)
    (hpres : ∀ w, (f w).id = w.id) (v : Vehicle)
    (hfind : l.find? (fun w => w.id == vid) = some v) :
    (l.map (fun w => if w.id = vid then f w else w)).find? (fun w => w.id == vid) =
      some (f v) := by
  induction l with
  | nil => simp [List.find?] at hfind
  | cons w ws ih =>
      simp only [List.map_cons, List.find?]
      by_cases hw : w.id = vid
      · have hid : (f w).id = w.id := hpres w
        have hbeq : (w.id == vid) = true := by simpa using hw
        simp only [List.find?, hbeq] at hfind
        simp only [hw, if_true, hid, hbeq]
        simpa using congrArg f (Option.some.inj hfind)
      · have hbeq : (w.id == vid) = false := by simpa using hw
        simp only [List.find?, hbeq] at hfind
        simp only [hw, if_false, hbeq]
        exact ih hfind

/-- `find_update_self`, at the store level. -/
theorem getVehicle_updateVehicle_self (ss : SystemState) (vid : String)
    (f : Vehicle → Vehicle) (hpres : ∀ w, (f w).id = w.id) (v : Vehicle)
    (hv : ss.getVehicle vid = some v) :
    (ss.updateVehicle vid f).getVehicle vid = some (f v) :=
  find_update_self ss.vehicles vid f hpres v hv

/-- `find_update_of_ne`, at the store level. -/
theorem getVehicle_updateVehicle_ne (ss : SystemState) (vid xid : String)
    (f : Vehicle → Vehicle) (hpres : ∀ w, (f w).id = w.id) (hne : xid ≠ vid) :
    (ss.updateVehicle vid f).getVehicle xid = ss.getVehicle xid :=
  find_update_of_ne ss.vehicles vid xid f hpres hne

/-- The vehicle list of an updated store, spelled out. -/
theorem vehicles_updateVehicle (ss : SystemState) (vid : String) (f : Vehicle → Vehicle) :
    (ss.updateVehicle vid f).vehicles =
      ss.vehicles.map (fun v => if v.id = vid then f v else v) := rfl

/-- The lookup of a store, spelled out. -/
theorem getVehicle_eq_find (ss : SystemState) (xid : String) :
    ss.getVehicle xid = ss.vehicles.find? (fun v => v.id == xid) := rfl

/-- Membership in the store's availability report: the vehicle is stored
and its state passes the string test. -/
theorem mem_sm_available {ss : SystemState} {r : Vehicle}
    (h : r ∈ sm_get_available_vehicles ss) :
    r ∈ ss.vehicles ∧ (vehicle_state_value r.state = "idle" ∨
      vehicle_state_value r.state = "assigned") := by
  unfold sm_get_available_vehicles at h
  obtain ⟨vid, _hvid, hf⟩ := List.mem_filterMap.mp h
  cases hg : ss.getVehicle vid with
  | none => simp [hg] at hf
  | some v =>
      simp only [hg] at hf
      by_cases hcond : vehicle_state_value v.state = "idle" ∨
          vehicle_state_value v.state = "assigned"
      · simp only [hcond, if_true, Option.some.injEq] at hf
        subst hf
        exact ⟨List.mem_of_find?_eq_some hg, hcond⟩
      · simp [hcond] at hf

/-- An id-preserving update does not change the stored id list. -/
theorem map_id_update (l : List Vehicle) (vid : String) (f : Vehicle → Vehicle)
    (hpres : ∀ w, (f w).id = w.id) :
    (l.map (fun v => if v.id = vid then f v else v)).map Vehicle.id = l.map Vehicle.id := by
  induction l with
  | nil => simp
  | cons w ws ih =>
      simp only [List.map_cons, ih, List.cons.injEq, and_true]
      by_cases hw : w.id = vid
      · simp [hw, hpres w]
      · simp [hw]

/-- Writing a record into the active set makes it the one its id looks up. -/
theorem get_set_exception (l : List ExceptionRecord) (r : ExceptionRecord) :
    get_exception (set_exception l r) r.id = some r := by
  unfold set_exception get_exception
  by_cases hany : l.any (fun x => x.id == r.id)
  · simp only [hany, if_true]
    induction l with
    | nil => simp at hany
    | cons w ws ih =>
        simp only [List.any_cons, Bool.or_eq_true] at hany
        by_cases hw : w.id = r.id
        · simp [List.find?, hw]
        · have hbeq : (w.id == r.id) = false := by simpa using hw
          simp only [List.map_cons, hw, if_false, List.find?, hbeq]
          exact ih (by
            rcases hany with hany | hany
            · exact absurd (by simpa using hany) hw
            · simpa using hany)
  · simp only [hany, if_false]
    induction l with
    | nil => simp [List.find?]
    | cons w ws ih =>
        simp only [List.any_cons, Bool.or_eq_true, not_or] at hany
        have hbeq : (w.id == r.id) = false := by
          simpa using hany.1
        simp only [List.cons_append, List.find?, hbeq]
        exact ih (by simpa using hany.2)

/-! ## The claims -/

/-- C1: for every finite initial set of orders and vehicles — the
degenerate zero-vehicle case included — one `run_workflow` invocation
(a) never exhausts the recursion limit (no stack/recursion error arises,
so the recursion-limit fallback dict is never produced), (b) completes
within the step ceiling of 20 orchestrator steps, and (c) once the step
counter exceeds 20, `_orchestrate` force-ends the cycle and routing
terminates.  `run_workflow` is total by construction (every caught
exception becomes a result value), quantified here over arbitrary
registered-agent behaviour. -/
theorem run_workflow_step_ceiling :
    (∀ (α : Type) (agentStep : String → GraphState → α → SystemState → α × SystemState)
        (a : α) (orch : Orchestrator) (ss : SystemState) (input_orders : List OrderData),
        run_workflow agentStep a orch ss input_orders ≠ RunResult.recursionLimitNote) ∧
    (∀ (α : Type) (agentStep : String → GraphState → α → SystemState → α × SystemState)
        (a : α) (orch : Orchestrator) (ss : SystemState) (input_orders : List OrderData)
        (gs : GraphState) (orchF : Orchestrator) (ssF : SystemState),
        run_workflow agentStep a orch ss input_orders =
          RunResult.completed gs orchF ssF →
        gs.step_count ≤ 20) ∧
    (∀ (orch : Orchestrator) (ss : SystemState) (gs : GraphState),
        20 ≤ gs.step_count →
        orchestrate orch ss gs =
          .ok ({ gs with step_count := gs.step_count + 1, force_end := true },
               { orch with current_step_count := gs.step_count + 1 }) ∧
        route_to_agents { gs with step_count := gs.step_count + 1, force_end := true }
          = "END") := by
  refine ⟨?_, ?_, ?_⟩
  · intro α agentStep a orch ss input_orders hcontra
    unfold run_workflow at hcontra
    simp only [] at hcontra
    cases hrun : runLoop agentStep 50
        { step_count := 0, force_end := false, decisions := allFalse
          orders_data := input_orders } (run_workflow_init orch) a ss with
    | ok out =>
        obtain ⟨gs1, orch1, a1, ss1⟩ := out
        rw [hrun] at hcontra
        simp at hcontra
    | error e =>
        cases e with
        | recursionLimit =>
            exact runLoop_ne_recursion agentStep 50 _ _ a ss (by norm_num)
              (by norm_num) hrun
        | attributeError => rw [hrun] at hcontra; simp at hcontra
  · intro α agentStep a orch ss input_orders gs orchF ssF h
    unfold run_workflow at h
    simp only [] at h
    cases hrun : runLoop agentStep 50
        { step_count := 0, force_end := false, decisions := allFalse
          orders_data := input_orders } (run_workflow_init orch) a ss with
    | error e => rw [hrun] at h; cases e <;> simp at h
    | ok out =>
        obtain ⟨gs1, orch1, a1, ss1⟩ := out
        rw [hrun] at h
        simp only [RunResult.completed.injEq] at h
        have hb := runLoop_step_bound agentStep 50 _ _ a ss (gs1, orch1, a1, ss1)
          (by norm_num) hrun
        have : gs1 = gs := h.1
        subst this
        simp only at hb
        omega
  · intro orch ss gs h20
    constructor
    · unfold orchestrate
      simp only [show 20 < gs.step_count + 1 by omega, if_true]
    · simp [route_to_agents]

/-- C3 counterexample: one pending order and zero vehicles, a full run from
a fresh orchestrator.  The run executes 11 orchestrator cycles — ten of
them finding zero available vehicles, more than the four the claim
speaks of — yet ends with `noVehicleAttempts = 0` (nothing in the loop
calls `handle_vehicle_assignment_result`, the counter's only increment
site) and an empty `failedAssignment` set, directly contradicting the
claimed counter value of 3 and the claimed marking of pending orders. -/
theorem no_vehicle_run_counterexample :
    run_workflow (theAgents 0) ⟨0, []⟩ mkOrchestrator c3_store [] =
      RunResult.completed ⟨11, false, allFalse, []⟩ c3_final_orchestrator c3_store ∧
    c3_final_orchestrator.no_vehicle_attempts = 0 ∧
    c3_final_orchestrator.failed_assignments = [] ∧
    ¬ (c3_final_orchestrator.no_vehicle_attempts = 3 ∧
        "o1" ∈ c3_final_orchestrator.failed_assignments) := by
  refine ⟨by decide, rfl, rfl, by decide⟩

/-- C3 amended: `noVehicleAttempts` is reset to 0 at the start of every
run and never incremented during one — `handle_vehicle_assignment_result`,
the sole increment site, has no caller — so whenever a run completes, the
counter is still 0 and the `failedAssignment` set is exactly what it was
before the run (the marking branch requires the counter `≥ 3`); the
zero-vehicle run instead terminates through the step-count soft stop. -/
theorem no_vehicle_attempts_stays_zero {α : Type}
    (agentStep : String → GraphState → α → SystemState → α × SystemState)
    (a : α) (orch : Orchestrator) (ss : SystemState) (input_orders : List OrderData)
    (gs : GraphState) (orchF : Orchestrator) (ssF : SystemState)
    (h : run_workflow agentStep a orch ss input_orders =
      RunResult.completed gs orchF ssF) :
    orchF.no_vehicle_attempts = 0 ∧
    orchF.failed_assignments = orch.failed_assignments := by
  unfold run_workflow at h
  simp only [] at h
  cases hrun : runLoop agentStep 50
      { step_count := 0, force_end := false, decisions := allFalse
        orders_data := input_orders } (run_workflow_init orch) a ss with
  | error e => rw [hrun] at h; cases e <;> simp at h
  | ok out =>
      obtain ⟨gs1, orch1, a1, ss1⟩ := out
      rw [hrun] at h
      simp only [RunResult.completed.injEq] at h
      have hz := runLoop_no_vehicle_attempts agentStep 50 _ _ a ss
        (gs1, orch1, a1, ss1) (by simp [run_workflow_init]) hrun
      have : orch1 = orchF := h.2.1
      subst this
      simpa [run_workflow_init] using hz

/-- Witness for `no_vehicle_attempts_stays_zero`: the trivial agent table
on the empty store completes in one step, and the theorem applies. -/
theorem no_vehicle_attempts_stays_zero_witness :
    run_workflow (fun (_ : String) (_ : GraphState) (a : Unit) (ss : SystemState) => (a, ss))
        () mkOrchestrator ⟨[], []⟩ [] =
      RunResult.completed ⟨1, false, allFalse, []⟩ ⟨[], [], [], 0, 1⟩ ⟨[], []⟩ ∧
    (⟨[], [], [], 0, 1⟩ : Orchestrator).no_vehicle_attempts = 0 ∧
    (⟨[], [], [], 0, 1⟩ : Orchestrator).failed_assignments =
      mkOrchestrator.failed_assignments :=
  ⟨by decide,
   no_vehicle_attempts_stays_zero
     (fun (_ : String) (_ : GraphState) (a : Unit) (ss : SystemState) => (a, ss))
     () mkOrchestrator ⟨[], []⟩ []
     ⟨1, false, allFalse, []⟩ ⟨[], [], [], 0, 1⟩ ⟨[], []⟩ (by decide)⟩

/-- C4: once the step count has passed the soft threshold of 15, the
decision/routing pair can only reach the Conflict/Escalation worker (and
then only with failed orders present) or terminate — never intake,
assignment or routing.  In the source the degradation in fact begins at
step 11 and routes nowhere at all (every decision is false), so the stated
property holds a fortiori: the route is always `END`. -/
theorem decide_past_soft_threshold (orch : Orchestrator) (ss : SystemState)
    (fe : Bool) (odata : List OrderData)
    (h : 15 < orch.current_step_count) :
    let gs : GraphState :=
      { step_count := orch.current_step_count, force_end := fe
        decisions := (make_decisions orch ss).2, orders_data := odata }
    (route_to_agents gs = "exception_handling_agent" ∨ route_to_agents gs = "END") ∧
    (route_to_agents gs = "exception_handling_agent" →
      ss.orders.filter (fun o => decide (o.state = .failed)) ≠ []) ∧
    route_to_agents gs ≠ "order_ingestion_agent" ∧
    route_to_agents gs ≠ "vehicle_assignment_agent" ∧
    route_to_agents gs ≠ "route_planning_agent" := by
  intro gs
  have hall : make_decisions orch ss = (orch, allFalse) :=
    make_decisions_past_ten ss (by omega)
  have hroute : route_to_agents gs = "END" :=
    route_to_agents_allFalse (by simp [gs, hall])
  rw [hroute]
  exact ⟨Or.inr rfl, by simp, by simp, by simp, by simp⟩

/-- Witness for `decide_past_soft_threshold` at step 16 with a failed
order in the store. -/
theorem decide_past_soft_threshold_witness :
    15 < c4_orchestrator.current_step_count ∧
    (let gs : GraphState :=
      { step_count := c4_orchestrator.current_step_count, force_end := false
        decisions := (make_decisions c4_orchestrator c4_store).2, orders_data := [] }
     (route_to_agents gs = "exception_handling_agent" ∨ route_to_agents gs = "END") ∧
     (route_to_agents gs = "exception_handling_agent" →
       c4_store.orders.filter (fun o => decide (o.state = .failed)) ≠ []) ∧
     route_to_agents gs ≠ "order_ingestion_agent" ∧
     route_to_agents gs ≠ "vehicle_assignment_agent" ∧
     route_to_agents gs ≠ "route_planning_agent") :=
  ⟨by decide, decide_past_soft_threshold c4_orchestrator c4_store false [] (by decide)⟩

/-- C7 counterexample: an orchestrator carrying a seen order and a
failed-assignment mark from a previous run.  The per-run reset of
`run_workflow` clears only the step counter and `noVehicleAttempts`; the
"seen" and `failedAssignment` sets survive into the new run, contradicting
the claim that all three are reset. -/
theorem run_reset_counterexample :
    (run_workflow_init c7_stale_orchestrator).no_vehicle_attempts = 0 ∧
    (run_workflow_init c7_stale_orchestrator).current_step_count = 0 ∧
    (run_workflow_init c7_stale_orchestrator).processed_orders = ["o1"] ∧
    (run_workflow_init c7_stale_orchestrator).failed_assignments = ["o1"] ∧
    ¬ ((run_workflow_init c7_stale_orchestrator).processed_orders = [] ∧
        (run_workflow_init c7_stale_orchestrator).failed_assignments = []) := by
  exact ⟨rfl, rfl, rfl, rfl, by decide⟩

/-- C7 amended: the per-run reset clears exactly the `noVehicleAttempts`
counter and the step counter; the "seen" (`_processed_orders`) and
`failedAssignment` (`_failed_assignments`) sets are initialised empty when
the orchestrator is constructed but persist across runs untouched by the
reset. -/
theorem run_reset_characterization :
    (∀ orch : Orchestrator,
      (run_workflow_init orch).no_vehicle_attempts = 0 ∧
      (run_workflow_init orch).current_step_count = 0 ∧
      (run_workflow_init orch).processed_orders = orch.processed_orders ∧
      (run_workflow_init orch).failed_assignments = orch.failed_assignments ∧
      (run_workflow_init orch).message_queue = orch.message_queue) ∧
    mkOrchestrator.processed_orders = [] ∧
    mkOrchestrator.failed_assignments = [] ∧
    mkOrchestrator.no_vehicle_attempts = 0 :=
  ⟨fun _ => ⟨rfl, rfl, rfl, rfl, rfl⟩, rfl, rfl, rfl⟩

/-- C2 counterexample: a worker sends a message with `send_message`.  The
message lands only in the sender's own `self.messages` list; the
orchestrator's `message_queue` (which only the never-called
`route_message` feeds) stays empty, and draining it delivers nothing — the
sent message is never delivered to its recipient, contradicting the
claimed exactly-once delivery. -/
theorem send_message_not_delivered_counterexample :
    (send_message "uuid-1" c2_sender "supervisor_agent" "assignment_completed" []).1.messages
      = [(send_message "uuid-1" c2_sender "supervisor_agent" "assignment_completed" []).2] ∧
    mkOrchestrator.message_queue = [] ∧
    process_message_queue mkOrchestrator.message_queue = .ok [] ∧
    (send_message "uuid-1" c2_sender "supervisor_agent" "assignment_completed" []).2 ∉
      (([] : List (String × AgentMessage)).map Prod.snd) := by
  exact ⟨rfl, rfl, rfl, by decide⟩

/-- C2 amended: `send_message` only appends the built message to the
sending agent's own list and returns it — no queue is touched;
`route_message` (never called anywhere in the repository) is the only
producer of the orchestrator queue; and `_process_message_queue` delivers
nothing from an empty queue while raising `AttributeError` on any
non-empty one (the in-scope `AgentMessage` has no `receiver` attribute),
so no `send_message` message is ever delivered to its recipient. -/
theorem send_message_local_only :
    (∀ (uuid : String) (a : BaseAgentState) (receiver mtype : String)
        (payload : List (String × String)),
      (send_message uuid a receiver mtype payload).1.messages =
        a.messages ++ [(send_message uuid a receiver mtype payload).2] ∧
      (send_message uuid a receiver mtype payload).1.name = a.name ∧
      (send_message uuid a receiver mtype payload).2.recipient_agent = some receiver) ∧
    (∀ (orch : Orchestrator) (m : AgentMessage),
      (route_message orch m).message_queue = orch.message_queue ++ [m]) ∧
    process_message_queue [] = .ok [] ∧
    (∀ (m : AgentMessage) (q : List AgentMessage),
      process_message_queue (m :: q) = .error .attributeError) :=
  ⟨fun _ _ _ _ _ => ⟨rfl, rfl, rfl⟩, fun _ _ => rfl, rfl, fun _ _ => rfl⟩

/-- C10: the distance function used for assignment and routing is the
haversine great-circle formula with Earth radius 6371 km: the two copies
in the two agents agree, the distance from any point to itself is 0, and
the distance from NYC (40.7128, -74.0060) to the point one degree of
latitude north is within 1% of 111.2 km. -/
theorem haversine_distance_properties :
    (∀ p : Location, calculate_distance p p = 0) ∧
    (∀ p q : Location, rp_calculate_distance p q = calculate_distance p q) ∧
    |calculate_distance nyc nyc_north - 111.2| ≤ (1 / 100) * 111.2 := by
  refine ⟨fun p => by simp [calculate_distance], fun p q => rfl, ?_⟩
  have hpi := Real.pi_pos
  have key : calculate_distance nyc nyc_north = 6371 * (2 * (Real.pi / 360)) := by
    have h1 : ((41.7128 : ℚ) : ℝ) * Real.pi / 180 - ((40.7128 : ℚ) : ℝ) * Real.pi / 180
        = Real.pi / 180 := by
      push_cast
      ring_nf
    simp only [calculate_distance, nyc, nyc_north, radians, sub_self, h1]
    rw [show Real.pi / 180 / 2 = Real.pi / 360 by ring]
    rw [show (0 : ℝ) / 2 = 0 by norm_num]
    simp only [Real.sin_zero, ne_eq, OfNat.ofNat_ne_zero, not_false_eq_true, zero_pow,
      mul_zero, add_zero]
    rw [Real.sqrt_sq (Real.sin_nonneg_of_nonneg_of_le_pi (by positivity) (by nlinarith)),
      Real.arcsin_sin (by nlinarith) (by nlinarith)]
  rw [key, abs_le]
  have hlo := Real.pi_gt_d6
  have hhi := Real.pi_lt_d2
  constructor <;> nlinarith

/-- C5 counterexample: a vehicle in state `assigned` already holding its
`max_orders` quota.  The Entity Store's `get_available_vehicles` returns
it anyway — the store-level filter tests only the state, never capacity —
so the store's report is not the set the spec's predicate describes. -/
theorem get_available_vehicles_capacity_counterexample :
    sm_get_available_vehicles ⟨[], [c5_full_vehicle]⟩ = [c5_full_vehicle] ∧
    c5_full_vehicle.state = .assigned ∧
    c5_full_vehicle.max_orders ≤ c5_full_vehicle.assigned_orders.length ∧
    ¬ spec_available_vehicle c5_full_vehicle ∧
    ¬ (sm_get_available_vehicles ⟨[], [c5_full_vehicle]⟩ =
        (⟨[], [c5_full_vehicle]⟩ : SystemState).vehicles.filter
          (fun v => decide (spec_available_vehicle v))) := by
  exact ⟨rfl, rfl, by decide, by decide, by decide⟩

/-- C5 amended: the Entity Store's `get_available_vehicles` returns
exactly the stored vehicles whose state is `idle` or `assigned`,
regardless of capacity (stated for stores without duplicate ids, which is
every store the keyed Redis hashes can represent); the spec's
capacity-aware predicate is implemented one level up, by
`VehicleAssignmentAgent._get_available_vehicles`, which returns exactly
the vehicles that are `idle`, or `assigned` with
`len(assigned_orders) < max_orders`. -/
theorem get_available_vehicles_characterization :
    (∀ ss : SystemState, (ss.vehicles.map Vehicle.id).Nodup →
      sm_get_available_vehicles ss = ss.vehicles.filter (fun v =>
        decide (vehicle_state_value v.state = "idle" ∨
          vehicle_state_value v.state = "assigned"))) ∧
    (∀ ss : SystemState, agent_get_available_vehicles ss =
      ss.vehicles.filter (fun v => decide (spec_available_vehicle v))) :=
  ⟨sm_get_available_vehicles_eq_filter, agent_get_available_vehicles_eq_filter⟩

/-- C6, evaluating the code at the claim's own scenario: one idle vehicle
with `max_orders = 1`, two `new` orders of priority 5 and 1.  One
`VehicleAssignmentAgent.process` cycle under the default
balanced-workload strategy assigns *both* orders to the vehicle — the
in-loop capacity check reads the cycle-start snapshot, which never sees
the earlier pairing — so the priority-1 order ends `assigned`, not `new`,
and the vehicle ends holding 2 orders against `max_orders = 1`. -/
theorem balanced_workload_overassignment :
    (vehicleAssignmentProcess c6_store).1 =
      ⟨[{ c6_order_p5 with state := .assigned }, { c6_order_p1 with state := .assigned }],
       [{ c6_vehicle with assigned_orders := ["o5", "oP1"], state := .assigned }]⟩ ∧
    ((vehicleAssignmentProcess c6_store).1.getOrder "o5").map Order.state =
      some .assigned ∧
    ((vehicleAssignmentProcess c6_store).1.getOrder "oP1").map Order.state =
      some .assigned ∧
    ¬ (((vehicleAssignmentProcess c6_store).1.getOrder "oP1").map Order.state =
        some .new) ∧
    ((vehicleAssignmentProcess c6_store).1.getVehicle "v1").map Vehicle.assigned_orders =
      some ["o5", "oP1"] := by
  have key : (vehicleAssignmentProcess c6_store).1 =
      ⟨[{ c6_order_p5 with state := .assigned }, { c6_order_p1 with state := .assigned }],
       [{ c6_vehicle with assigned_orders := ["o5", "oP1"], state := .assigned }]⟩ := by
    norm_num [vehicleAssignmentProcess, assign_vehicles_to_orders,
      balanced_workload_assignment, sort_orders_by_priority_desc, insert_by_priority,
      find_balanced_vehicle, check_capacity_constraints, calculate_current_weight,
      calculate_current_volume, agent_get_available_vehicles, execute_assignments,
      SystemState.updateOrder, SystemState.updateVehicle, SystemState.getOrder,
      SystemState.getVehicle, c6_store, c6_order_p5, c6_order_p1, c6_vehicle,
      List.filter, List.foldl, List.find?]
    decide
  refine ⟨key, ?_, ?_, ?_, ?_⟩ <;> rw [key] <;> decide

/-- A breakdown's derived severity is `high`, upgraded to `critical` for a
time-sensitive order — never lower. -/
theorem breakdown_severity (oid vid : Option String) (cp ts : Bool) :
    determine_severity ⟨.vehicle_breakdown, oid, vid, cp, ts⟩ = .high ∨
    determine_severity ⟨.vehicle_breakdown, oid, vid, cp, ts⟩ = .critical := by
  cases cp <;> cases ts <;> simp [determine_severity]

/-- For a breakdown record of severity `high` or `critical`, the initial
recovery action is the head of the breakdown strategy list:
`dispatch_replacement_vehicle`. -/
theorem breakdown_initial (r : ExceptionRecord) (he : r.etype = .vehicle_breakdown)
    (hs : r.severity = .high ∨ r.severity = .critical) :
    determine_initial_response r = "dispatch_replacement_vehicle" := by
  rcases hs with hs | hs <;>
    simp [determine_initial_response, he, hs, recovery_strategies]

/-- Executing the `dispatch_replacement_vehicle` action is the dispatch
helper on the record's vehicle id. -/
theorem execute_recovery_action_dispatch (now : ℚ) (r : ExceptionRecord)
    (ss : SystemState) :
    execute_recovery_action now r "dispatch_replacement_vehicle" ss =
      dispatch_replacement_vehicle r.vehicle_id ss := rfl

/-- Handling a breakdown report routes the store through
`_dispatch_replacement_vehicle` and reports that action's outcome. -/
theorem handle_breakdown_store (now : ℚ) (active : List ExceptionRecord)
    (ss : SystemState) (oid vid : Option String) (cp ts : Bool) :
    (handle_exception now active ss ⟨.vehicle_breakdown, oid, vid, cp, ts⟩).2.1 =
      (dispatch_replacement_vehicle vid ss).1 ∧
    (handle_exception now active ss
        ⟨.vehicle_breakdown, oid, vid, cp, ts⟩).2.2.response_result =
      (dispatch_replacement_vehicle vid ss).2 := by
  have hinit : determine_initial_response
      { id := "EXC_" ++ toString active.length
        etype := .vehicle_breakdown
        severity := determine_severity ⟨.vehicle_breakdown, oid, vid, cp, ts⟩
        order_id := oid
        vehicle_id := vid
        occurred_at := now
        status := "active"
        retry_count := 0
        escalation_level := 0
        recovery_attempts := [] } = "dispatch_replacement_vehicle" :=
    breakdown_initial _ rfl (breakdown_severity oid vid cp ts)
  simp only [handle_exception]
  rw [hinit, execute_recovery_action_dispatch]
  exact ⟨rfl, rfl⟩

/-- After any `_handle_exception` call, the freshly created record — under
the id built from the active-set length — is in the active set with
status `active`: neither a failed recovery action nor an escalation
removes or resolves it. -/
theorem handle_exception_record_active (now : ℚ) (active : List ExceptionRecord)
    (ss : SystemState) (d : ExceptionData) :
    ∃ rec, get_exception (handle_exception now active ss d).1
        ("EXC_" ++ toString active.length) = some rec ∧
      rec.status = "active" := by
  simp only [handle_exception]
  split
  · unfold escalate_exception
    rw [show ("EXC_" ++ toString active.length) =
      ({ id := "EXC_" ++ toString active.length
         etype := d.etype
         severity := determine_severity d
         order_id := d.order_id
         vehicle_id := d.vehicle_id
         occurred_at := now
         status := "active"
         retry_count := 0
         escalation_level := 0
         recovery_attempts := [determine_initial_response
           { id := "EXC_" ++ toString active.length
             etype := d.etype
             severity := determine_severity d
             order_id := d.order_id
             vehicle_id := d.vehicle_id
             occurred_at := now
             status := "active"
             retry_count := 0
             escalation_level := 0
             recovery_attempts := [] }] } : ExceptionRecord).id from rfl,
      get_set_exception]
    exact ⟨_, get_set_exception _ _, rfl⟩
  · exact ⟨_, get_set_exception _ _, rfl⟩

/-- What `_dispatch_replacement_vehicle` does when the broken vehicle
exists and the store still reports an available vehicle afterwards: the
first reported vehicle (necessarily a different one — the broken vehicle
is in `maintenance` by then) receives the broken vehicle's former orders
wholesale and turns `assigned`; the broken vehicle ends with no orders,
in `maintenance`. -/
theorem dispatch_replacement_spec (ss : SystemState) (vid : String) (v r : Vehicle)
    (rest : List Vehicle) (hnd : (ss.vehicles.map Vehicle.id).Nodup)
    (hv : ss.getVehicle vid = some v)
    (havail : sm_get_available_vehicles
      (ss.updateVehicle vid (fun w => { w with state := .maintenance })) = r :: rest) :
    r.id ≠ vid ∧
    ((dispatch_replacement_vehicle (some vid) ss).1.getVehicle r.id).map
      Vehicle.assigned_orders = some v.assigned_orders ∧
    ((dispatch_replacement_vehicle (some vid) ss).1.getVehicle r.id).map
      Vehicle.state = some .assigned ∧
    ((dispatch_replacement_vehicle (some vid) ss).1.getVehicle vid).map
      Vehicle.assigned_orders = some ([] : List String) ∧
    ((dispatch_replacement_vehicle (some vid) ss).1.getVehicle vid).map
      Vehicle.state = some .maintenance ∧
    (dispatch_replacement_vehicle (some vid) ss).2 =
      .replacement_dispatched r.id v.assigned_orders.length := by
  have hm_pres : ∀ w : Vehicle,
      (({ w with state := VehicleState.maintenance } : Vehicle)).id = w.id :=
    fun _ => rfl
  have hnd1 : (((ss.updateVehicle vid
      (fun w => { w with state := .maintenance })).vehicles).map Vehicle.id).Nodup := by
    rw [vehicles_updateVehicle, map_id_update ss.vehicles vid _ hm_pres]
    exact hnd
  have hr_mem : r ∈ (ss.updateVehicle vid
      (fun w => { w with state := .maintenance })).vehicles ∧
      (vehicle_state_value r.state = "idle" ∨
        vehicle_state_value r.state = "assigned") :=
    mem_sm_available (by rw [havail]; exact List.mem_cons_self r rest)
  have hv1 : (ss.updateVehicle vid
      (fun w => { w with state := .maintenance })).getVehicle vid =
      some { v with state := VehicleState.maintenance } :=
    getVehicle_updateVehicle_self ss vid _ hm_pres v hv
  have hrfind : (ss.updateVehicle vid
      (fun w => { w with state := .maintenance })).getVehicle r.id = some r := by
    rw [getVehicle_eq_find]
    exact find_id_self _ hnd1 r hr_mem.1
  have hrne : r.id ≠ vid := by
    intro hcontra
    rw [hcontra, hv1] at hrfind
    have : { v with state := VehicleState.maintenance } = r := Option.some.inj hrfind
    have hstate : r.state = VehicleState.maintenance := by
      rw [← this]
    rcases hr_mem.2 with hval | hval <;>
      simp [vehicle_state_value, hstate] at hval
  have hstep : dispatch_replacement_vehicle (some vid) ss =
      (((ss.updateVehicle vid (fun w => { w with state := .maintenance })).updateVehicle
          r.id (fun w => { w with assigned_orders := v.assigned_orders, state := VehicleState.assigned })).updateVehicle vid
          (fun w => { w with assigned_orders := [] }),
       .replacement_dispatched r.id v.assigned_orders.length) := by
    simp only [dispatch_replacement_vehicle, hv, havail]
  have hg_pres : ∀ w : Vehicle,
      (({ w with assigned_orders := v.assigned_orders, state := VehicleState.assigned } : Vehicle)).id = w.id :=
    fun _ => rfl
  have hh_pres : ∀ w : Vehicle,
      (({ w with assigned_orders := ([] : List String) } : Vehicle)).id = w.id :=
    fun _ => rfl
  have hr2 : ((ss.updateVehicle vid
      (fun w => { w with state := .maintenance })).updateVehicle r.id
        (fun w => { w with assigned_orders := v.assigned_orders, state := VehicleState.assigned })).getVehicle r.id =
      some { r with assigned_orders := v.assigned_orders, state := VehicleState.assigned } :=
    getVehicle_updateVehicle_self _ r.id _ hg_pres r hrfind
  have hv2 : ((ss.updateVehicle vid
      (fun w => { w with state := .maintenance })).updateVehicle r.id
        (fun w => { w with assigned_orders := v.assigned_orders, state := VehicleState.assigned })).getVehicle vid =
      some { v with state := VehicleState.maintenance } := by
    rw [getVehicle_updateVehicle_ne _ r.id vid _ hg_pres (Ne.symm hrne)]
    exact hv1
  have hr3 : ((dispatch_replacement_vehicle (some vid) ss).1).getVehicle r.id =
      some { r with assigned_orders := v.assigned_orders, state := VehicleState.assigned } := by
    rw [hstep]
    dsimp only
    rw [getVehicle_updateVehicle_ne _ vid r.id _ hh_pres hrne]
    exact hr2
  have hv3 : ((dispatch_replacement_vehicle (some vid) ss).1).getVehicle vid =
      some { v with state := VehicleState.maintenance, assigned_orders := ([] : List String) } := by
    rw [hstep]
    dsimp only
    exact getVehicle_updateVehicle_self _ vid _ hh_pres _ hv2
  refine ⟨hrne, ?_, ?_, ?_, ?_, ?_⟩
  · rw [hr3]; rfl
  · rw [hr3]; rfl
  · rw [hv3]; rfl
  · rw [hv3]; rfl
  · rw [hstep]

/-- C8: handling a vehicle-breakdown exception.  With at least one
replacement vehicle still reported available after the broken vehicle is
marked `maintenance`, the first such vehicle ends with exactly the broken
vehicle's former `assigned_orders` and state `assigned`, while the broken
vehicle ends with no orders and state `maintenance`.  With no replacement
available, the outcome is reported as `no_replacement_available` and the
exception record remains in the active set with status `active` — it is
not silently dropped. -/
theorem breakdown_replacement_transfer :
    (∀ (now : ℚ) (active : List ExceptionRecord) (ss : SystemState) (vid : String)
        (oid : Option String) (cp ts : Bool) (v r : Vehicle) (rest : List Vehicle),
      (ss.vehicles.map Vehicle.id).Nodup →
      ss.getVehicle vid = some v →
      sm_get_available_vehicles
        (ss.updateVehicle vid (fun w => { w with state := .maintenance })) = r :: rest →
      (((handle_exception now active ss
            ⟨.vehicle_breakdown, oid, some vid, cp, ts⟩).2.1.getVehicle r.id).map
          Vehicle.assigned_orders = some v.assigned_orders ∧
        ((handle_exception now active ss
            ⟨.vehicle_breakdown, oid, some vid, cp, ts⟩).2.1.getVehicle r.id).map
          Vehicle.state = some .assigned ∧
        ((handle_exception now active ss
            ⟨.vehicle_breakdown, oid, some vid, cp, ts⟩).2.1.getVehicle vid).map
          Vehicle.assigned_orders = some ([] : List String) ∧
        ((handle_exception now active ss
            ⟨.vehicle_breakdown, oid, some vid, cp, ts⟩).2.1.getVehicle vid).map
          Vehicle.state = some .maintenance)) ∧
    (∀ (now : ℚ) (active : List ExceptionRecord) (ss : SystemState) (vid : String)
        (v : Vehicle),
      ss.getVehicle vid = some v →
      sm_get_available_vehicles
        (ss.updateVehicle vid (fun w => { w with state := .maintenance })) = [] →
      ((handle_exception now active ss
          ⟨.vehicle_breakdown, none, some vid, false, false⟩).2.2.response_result =
        .no_replacement_available ∧
       ∃ rec, get_exception (handle_exception now active ss
            ⟨.vehicle_breakdown, none, some vid, false, false⟩).1
          ("EXC_" ++ toString active.length) = some rec ∧ rec.status = "active")) := by
  constructor
  · intro now active ss vid oid cp ts v r rest hnd hv havail
    have hstore := (handle_breakdown_store now active ss oid (some vid) cp ts).1
    have hspec := dispatch_replacement_spec ss vid v r rest hnd hv havail
    rw [hstore]
    exact ⟨hspec.2.1, hspec.2.2.1, hspec.2.2.2.1, hspec.2.2.2.2.1⟩
  · intro now active ss vid v hv hempty
    have hdisp : dispatch_replacement_vehicle (some vid) ss =
        (ss.updateVehicle vid (fun w => { w with state := .maintenance }),
         .no_replacement_available) := by
      simp only [dispatch_replacement_vehicle, hv, hempty]
    refine ⟨?_, handle_exception_record_active now active ss _⟩
    rw [(handle_breakdown_store now active ss none (some vid) false false).2, hdisp]

/-- Witness for `breakdown_replacement_transfer`: vehicle `bv` (holding
orders `x1`, `x2`) breaks down with idle `rv` available in the first
scenario, and alone in the store in the second. -/
theorem breakdown_replacement_transfer_witness :
    ((((handle_exception 0 [] ⟨[], [c8_broken_vehicle, c8_replacement_vehicle]⟩
          c8_breakdown).2.1.getVehicle "rv").map Vehicle.assigned_orders =
        some ["x1", "x2"]) ∧
      (((handle_exception 0 [] ⟨[], [c8_broken_vehicle, c8_replacement_vehicle]⟩
          c8_breakdown).2.1.getVehicle "rv").map Vehicle.state = some .assigned) ∧
      (((handle_exception 0 [] ⟨[], [c8_broken_vehicle, c8_replacement_vehicle]⟩
          c8_breakdown).2.1.getVehicle "bv").map Vehicle.assigned_orders =
        some ([] : List String)) ∧
      (((handle_exception 0 [] ⟨[], [c8_broken_vehicle, c8_replacement_vehicle]⟩
          c8_breakdown).2.1.getVehicle "bv").map Vehicle.state = some .maintenance)) ∧
    ((handle_exception 0 [] ⟨[], [c8_broken_vehicle]⟩ c8_breakdown).2.2.response_result =
        .no_replacement_available ∧
      ∃ rec, get_exception (handle_exception 0 [] ⟨[], [c8_broken_vehicle]⟩
          c8_breakdown).1 ("EXC_" ++ toString ([] : List ExceptionRecord).length) =
        some rec ∧ rec.status = "active") := by
  constructor
  · have h := breakdown_replacement_transfer.1 0 [] ⟨[], [c8_broken_vehicle,
      c8_replacement_vehicle]⟩ "bv" none false false c8_broken_vehicle
      c8_replacement_vehicle [] (by decide) (by decide) (by decide)
    exact ⟨h.1, h.2.1, h.2.2.1, h.2.2.2⟩
  · exact breakdown_replacement_transfer.2 0 [] ⟨[], [c8_broken_vehicle]⟩ "bv"
      c8_broken_vehicle (by decide) (by decide)

/-- C9: an order whose time window lies entirely in the past fails
validation with an error citing "Time window start cannot be in the past"
and is not created; the failure is recorded per-order and the rest of the
batch proceeds — a valid order submitted alongside it is still created,
with state `new`. -/
theorem past_time_window_rejected (now s e : ℚ) (bad good : OrderData)
    (ss : SystemState) (cnt : ℕ)
    (hs : bad.time_window_start = some s) (he : bad.time_window_end = some e)
    (hse : s < e) (hen : e ≤ now)
    (hgood : (validate_order_data now good).valid = true) :
    (validate_order_data now bad).valid = false ∧
    "Time window start cannot be in the past" ∈ (validate_order_data now bad).errors ∧
    ingestionProcess now cnt [bad, good] ss =
      { count := cnt + 1
        store := ss.addOrder (create_order now cnt good)
        processed := [(create_order now cnt good).id]
        failures := [(bad, (validate_order_data now bad).errors)] } ∧
    (create_order now cnt good).state = .new := by
  have hsn : s < now := lt_of_lt_of_le hse hen
  have hmem : "Time window start cannot be in the past" ∈
      (validate_order_data now bad).errors := by
    simp only [validate_order_data, hs, he]
    simp [hsn]
  have hvalid : (validate_order_data now bad).valid = false := by
    have h0 : (validate_order_data now bad).valid =
        (validate_order_data now bad).errors.isEmpty := rfl
    rw [h0]
    simpa using List.ne_nil_of_mem hmem
  have hrun : ingestionProcess now cnt [bad, good] ss =
      { count := cnt + 1
        store := ss.addOrder (create_order now cnt good)
        processed := [(create_order now cnt good).id]
        failures := [(bad, (validate_order_data now bad).errors)] } := by
    simp [ingestionProcess, hvalid, hgood]
  exact ⟨hvalid, hmem, hrun, rfl⟩

/-- Witness for `past_time_window_rejected`: `now = 1000`, a window
`[100, 200]` entirely in the past beside a valid future-window order. -/
theorem past_time_window_rejected_witness :
    ((100 : ℚ) < 200 ∧ (200 : ℚ) ≤ 1000 ∧
      (validate_order_data 1000 c9_good_data).valid = true) ∧
    (validate_order_data 1000 c9_bad_data).valid = false ∧
    "Time window start cannot be in the past" ∈
      (validate_order_data 1000 c9_bad_data).errors :=
  ⟨⟨by decide, by decide, by decide⟩,
   (past_time_window_rejected 1000 100 200 c9_bad_data c9_good_data ⟨[], []⟩ 0
      rfl rfl (by decide) (by decide) (by decide)).1,
   (past_time_window_rejected 1000 100 200 c9_bad_data c9_good_data ⟨[], []⟩ 0
      rfl rfl (by decide) (by decide) (by decide)).2.1⟩

end AIRLA
